import Mathlib

/-!
Verification of the ai-tax-agent repository against its specification.

This file gives a shallow embedding, in Lean 4, of the parts of the Python
source that the specification's claims talk about:

* `src/ai_agent.py`   — `TaxCalculator` (slab tax, both regimes), `DataValidator`
  (PAN/TAN validation, placeholder detection), `_get_nested_value`.
* `src/itd_mapper.py` — `ITRSchemaBuilder` templates, `Form16ToITRMapper.map_to_itr`
  and its section mappers, `ITREnhancer.apply_overrides` / `_set_nested_value`,
  `get_placeholders` traversal, `_is_placeholder_value`.
* `src/extractor.py`  — `ValidationEngine.is_valid_pan` / `is_valid_tan` /
  `normalize_amount`, `Form16Extractor._llm_fallback`.
* `src/pan_validator.py` — `validate_pan`.

Modelling conventions:

* Python ints are `ℤ`.  Python float arithmetic on currency amounts
  (rates `0.05`, `0.20`, `0.04`, … appearing in the source) is modelled
  exactly by the unnormalized fraction type `Frac` below, with Python's
  `int(...)` truncation-toward-zero modelled by `Frac.trunc`.  For every
  concrete input appearing in a theorem in this file the IEEE-double
  computation of the source and the exact rational computation agree after
  truncation (the intermediate products round to the same integers).
* Python dicts are insertion-ordered association lists; JSON-like values are
  the inductive `JVal` (`JVal.null` models Python `None`).
* `str.upper` / `str.lower` / `str.isdigit` are modelled on the ASCII range
  (all strings occurring in the repository's data paths are ASCII); theorems
  that depend on case folding carry an explicit ASCII hypothesis.
-/

/-! ## Exact fraction arithmetic

An unnormalized fraction `num / den` with positive denominator by
construction.  Only kernel-friendly integer operations are used, so closed
statements about the calculators can be settled by `decide`. -/

structure Frac where
  num : ℤ
  den : ℤ

def Frac.ofInt (n : ℤ) : Frac := ⟨n, 1⟩

def Frac.add (a b : Frac) : Frac := ⟨a.num * b.den + b.num * a.den, a.den * b.den⟩

def Frac.sub (a b : Frac) : Frac := ⟨a.num * b.den - b.num * a.den, a.den * b.den⟩

def Frac.mul (a b : Frac) : Frac := ⟨a.num * b.num, a.den * b.den⟩

/-- `a ≤ b` on fractions (valid because denominators are positive). -/
def Frac.leB (a b : Frac) : Bool := a.num * b.den ≤ b.num * a.den

def Frac.minF (a b : Frac) : Frac := if a.leB b then a else b

def Frac.maxF (a b : Frac) : Frac := if a.leB b then b else a

/-- Python `int(q)`: truncation toward zero. -/
def Frac.trunc (a : Frac) : ℤ := Int.tdiv a.num a.den

/-! ## Tax calculator (`src/ai_agent.py`, class `TaxCalculator`)

A slab is an `(upper bound, marginal rate)` pair; `Option.none` as the upper
bound models Python's `float('inf')`. -/

def OLD_REGIME_SLABS : List (Option ℤ × Frac) :=
  [(some 250000, ⟨0, 100⟩), (some 500000, ⟨5, 100⟩),
   (some 1000000, ⟨20, 100⟩), (none, ⟨30, 100⟩)]

def NEW_REGIME_SLABS : List (Option ℤ × Frac) :=
  [(some 300000, ⟨0, 100⟩), (some 600000, ⟨5, 100⟩), (some 900000, ⟨10, 100⟩),
   (some 1200000, ⟨15, 100⟩), (some 1500000, ⟨20, 100⟩), (none, ⟨30, 100⟩)]

/-- The loop body of `TaxCalculator._calculate_slab_tax`: iterates over the
slabs carrying `prev_limit` and the accumulated `tax`; breaks when
`income <= prev_limit` and after the slab that covers `income`
(`min(income, inf) = income` and `income <= inf` for the unbounded slab). -/
def slabTaxGo (income : ℤ) : List (Option ℤ × Frac) → ℤ → Frac → Frac
  | [], _, tax => tax
  | (limit, rate) :: rest, prev, tax =>
    if income ≤ prev then tax
    else
      match limit with
      | some l =>
        let tax' := tax.add ((Frac.ofInt (min income l - prev)).mul rate)
        if income ≤ l then tax' else slabTaxGo income rest l tax'
      | none => tax.add ((Frac.ofInt (income - prev)).mul rate)

/-- `TaxCalculator._calculate_slab_tax` (src/ai_agent.py lines 112-129). -/
def calculate_slab_tax (income : ℤ) (slabs : List (Option ℤ × Frac)) : Frac :=
  slabTaxGo income slabs 0 (Frac.ofInt 0)

/-- The `deductions` mapping consumed by the old-regime calculator: the three
keys it reads, each defaulting to 0 via `dict.get`. -/
structure TaxDeductions where
  s80C : ℤ
  s80D : ℤ
  s80G : ℤ

/-- The breakdown dictionary returned by both regime calculators. -/
structure TaxResult where
  gross_income : ℤ
  standard_deduction : ℤ
  income_after_standard : ℤ
  total_via_deductions : ℤ
  taxable_income : ℤ
  tax_before_rebate : ℤ
  rebate_87a : ℤ
  tax_after_rebate : ℤ
  cess : ℤ
  total_tax_liability : ℤ

/-- `TaxCalculator.calculate_tax_old_regime` (src/ai_agent.py lines 44-81). -/
def calculate_tax_old_regime (gross_income : ℤ) (d : TaxDeductions) : TaxResult :=
  let income_after_standard : ℤ := max 0 (gross_income - 50000)
  let total_via_deductions : ℤ := min d.s80C 150000 + min d.s80D 25000 + d.s80G
  let taxable_income : ℤ := max 0 (income_after_standard - total_via_deductions)
  let tax_before_rebate : Frac := calculate_slab_tax taxable_income OLD_REGIME_SLABS
  let rebate_87a : Frac :=
    if taxable_income ≤ 500000 then tax_before_rebate.minF (Frac.ofInt 12500)
    else Frac.ofInt 0
  let tax_after_rebate : Frac := (Frac.ofInt 0).maxF (tax_before_rebate.sub rebate_87a)
  let cess : Frac := tax_after_rebate.mul ⟨4, 100⟩
  let total_tax : Frac := tax_after_rebate.add cess
  { gross_income := gross_income
    standard_deduction := 50000
    income_after_standard := income_after_standard
    total_via_deductions := total_via_deductions
    taxable_income := taxable_income
    tax_before_rebate := tax_before_rebate.trunc
    rebate_87a := rebate_87a.trunc
    tax_after_rebate := tax_after_rebate.trunc
    cess := cess.trunc
    total_tax_liability := total_tax.trunc }

/-- `TaxCalculator.calculate_tax_new_regime` (src/ai_agent.py lines 83-110). -/
def calculate_tax_new_regime (gross_income : ℤ) : TaxResult :=
  let income_after_standard : ℤ := max 0 (gross_income - 50000)
  let taxable_income : ℤ := income_after_standard
  let tax_before_rebate : Frac := calculate_slab_tax taxable_income NEW_REGIME_SLABS
  let rebate_87a : Frac :=
    if taxable_income ≤ 700000 then tax_before_rebate.minF (Frac.ofInt 25000)
    else Frac.ofInt 0
  let tax_after_rebate : Frac := (Frac.ofInt 0).maxF (tax_before_rebate.sub rebate_87a)
  let cess : Frac := tax_after_rebate.mul ⟨4, 100⟩
  let total_tax : Frac := tax_after_rebate.add cess
  { gross_income := gross_income
    standard_deduction := 50000
    income_after_standard := income_after_standard
    total_via_deductions := 0
    taxable_income := taxable_income
    tax_before_rebate := tax_before_rebate.trunc
    rebate_87a := rebate_87a.trunc
    tax_after_rebate := tax_after_rebate.trunc
    cess := cess.trunc
    total_tax_liability := total_tax.trunc }

/-- C1: for gross income 1200000 and deductions `{80C: 150000, 80D: 25000,
80G: 10000}`, the old-regime calculator returns income after standard
deduction 1150000, total deductions 185000, taxable income 965000,
pre-rebate tax 105500, no rebate, cess 4220 and total liability 109720. -/
theorem c1_old_regime_example :
    (calculate_tax_old_regime 1200000 ⟨150000, 25000, 10000⟩).income_after_standard = 1150000 ∧
    (calculate_tax_old_regime 1200000 ⟨150000, 25000, 10000⟩).total_via_deductions = 185000 ∧
    (calculate_tax_old_regime 1200000 ⟨150000, 25000, 10000⟩).taxable_income = 965000 ∧
    (calculate_tax_old_regime 1200000 ⟨150000, 25000, 10000⟩).tax_before_rebate = 105500 ∧
    (calculate_tax_old_regime 1200000 ⟨150000, 25000, 10000⟩).rebate_87a = 0 ∧
    (calculate_tax_old_regime 1200000 ⟨150000, 25000, 10000⟩).cess = 4220 ∧
    (calculate_tax_old_regime 1200000 ⟨150000, 25000, 10000⟩).total_tax_liability = 109720 := by
  decide

/-- C6: for gross income 400000 with zero deductions, both regimes yield a
total tax liability of 0 (the full pre-rebate tax is cancelled by the
section-87A rebate, hence zero cess as well). -/
theorem c6_rebate_zeroes_tax :
    (calculate_tax_old_regime 400000 ⟨0, 0, 0⟩).total_tax_liability = 0 ∧
    (calculate_tax_old_regime 400000 ⟨0, 0, 0⟩).cess = 0 ∧
    (calculate_tax_new_regime 400000).total_tax_liability = 0 ∧
    (calculate_tax_new_regime 400000).cess = 0 := by
  decide

/-! ## Character helpers (ASCII model of Python `str` methods) -/

def isUpperAZ (c : Char) : Bool := decide ('A' ≤ c) && decide (c ≤ 'Z')

def isDigit09 (c : Char) : Bool := decide ('0' ≤ c) && decide (c ≤ '9')

def isLowerAZ (c : Char) : Bool := decide ('a' ≤ c) && decide (c ≤ 'z')

/-- Python `str.upper`, per character (ASCII model). -/
def pyUpperChar (c : Char) : Char :=
  if isLowerAZ c then Char.ofNat (c.toNat - 32) else c

/-- Python `str.lower`, per character (ASCII model). -/
def pyLowerChar (c : Char) : Char :=
  if isUpperAZ c then Char.ofNat (c.toNat + 32) else c

/-! ## PAN / TAN validation

The source validates with three regex idioms:

* `re.fullmatch(r"[A-Z]{5}[0-9]{4}[A-Z]", pan.upper())`
  (`ValidationEngine.is_valid_pan`, src/extractor.py lines 116-121);
* `re.match(r'^[A-Z]{5}[0-9]{4}[A-Z]$', pan)`
  (`DataValidator.validate_pan`, src/ai_agent.py lines 183-188);
* `re.match(r"^[A-Z]{5}\d{4}[A-Z]$", pan.upper())`
  (`validate_pan`, src/pan_validator.py lines 3-9);

and the TAN analogues with `[A-Z]{4}[0-9]{5}[A-Z]`.  The fixed-shape pattern
is compiled to `matchRun` runs.  `re.fullmatch` requires an empty remainder;
an anchored `$` also accepts a remainder consisting of one final newline. -/

/-- Consume exactly `n` characters satisfying `p`, returning the rest. -/
def matchRun (p : Char → Bool) : Nat → List Char → Option (List Char)
  | 0, cs => some cs
  | _ + 1, [] => none
  | n + 1, c :: cs => if p c then matchRun p n cs else none

/-- Consume `n1` uppercase letters, `n2` digits and one uppercase letter
(the common shape of the PAN and TAN patterns), returning the rest. -/
def idConsume (n1 n2 : Nat) (cs : List Char) : Option (List Char) :=
  (((matchRun isUpperAZ n1 cs).bind (matchRun isDigit09 n2)).bind (matchRun isUpperAZ 1))

/-- `re.fullmatch` of the shape pattern. -/
def idFullB (n1 n2 : Nat) (cs : List Char) : Bool :=
  match idConsume n1 n2 cs with
  | some r => r == []
  | none => false

/-- `re.match` of the `^`…`$`-anchored shape pattern (`$` also matches just
before a single final newline). -/
def idDollarB (n1 n2 : Nat) (cs : List Char) : Bool :=
  match idConsume n1 n2 cs with
  | some r => r == [] || r == ['\n']
  | none => false

/-- `ValidationEngine.is_valid_pan` (src/extractor.py lines 116-121). -/
def is_valid_pan (s : String) : Bool :=
  if s = "" then false else idFullB 5 4 (s.data.map pyUpperChar)

/-- `ValidationEngine.is_valid_tan` (src/extractor.py lines 123-128). -/
def is_valid_tan (s : String) : Bool :=
  if s = "" then false else idFullB 4 5 (s.data.map pyUpperChar)

/-- `DataValidator.validate_pan` (src/ai_agent.py lines 183-188). -/
def dv_validate_pan (s : String) : Bool :=
  if s = "" then false else idDollarB 5 4 s.data

/-- `DataValidator.validate_tan` (src/ai_agent.py lines 190-195). -/
def dv_validate_tan (s : String) : Bool :=
  if s = "" then false else idDollarB 4 5 s.data

/-- `validate_pan` (src/pan_validator.py lines 3-9). -/
def pv_validate_pan (s : String) : Bool :=
  if s = "" then false else idDollarB 5 4 (s.data.map pyUpperChar)

/-- The declarative reading of the spec's pattern `[A-Z]{n1}[0-9]{n2}[A-Z]`:
the character list decomposes into `n1` uppercase letters, `n2` digits and a
final uppercase letter. -/
abbrev idSpec (n1 n2 : Nat) (cs : List Char) : Prop :=
  ∃ a b c0, cs = a ++ b ++ [c0] ∧
    a.length = n1 ∧ (∀ x ∈ a, isUpperAZ x = true) ∧
    b.length = n2 ∧ (∀ x ∈ b, isDigit09 x = true) ∧
    isUpperAZ c0 = true

theorem matchRun_eq_some (p : Char → Bool) :
    ∀ (n : Nat) (cs r : List Char),
      matchRun p n cs = some r ↔
        ∃ pre, cs = pre ++ r ∧ pre.length = n ∧ ∀ c ∈ pre, p c = true := by
  intro n
  induction n with
  | zero =>
    intro cs r
    simp only [matchRun, Option.some.injEq]
    constructor
    · intro h
      exact ⟨[], by simp [h], rfl, by intro c hc; cases hc⟩
    · rintro ⟨pre, h1, h2, _⟩
      rw [List.length_eq_zero] at h2
      subst h2
      simpa using h1
  | succ n ih =>
    intro cs r
    cases cs with
    | nil =>
      simp only [matchRun]
      constructor
      · intro h; cases h
      · rintro ⟨pre, h1, h2, _⟩
        cases pre with
        | nil => simp at h2
        | cons d pre' => simp at h1
    | cons c cs' =>
      cases hc : p c with
      | true =>
        have hstep : matchRun p (n + 1) (c :: cs') = matchRun p n cs' := by
          simp [matchRun, hc]
        rw [hstep]
        constructor
        · intro h
          obtain ⟨pre, h1, h2, h3⟩ := (ih cs' r).mp h
          refine ⟨c :: pre, by simp [h1], by simp [h2], ?_⟩
          intro x hx
          rcases List.mem_cons.mp hx with hx' | hx'
          · subst hx'; exact hc
          · exact h3 x hx'
        · rintro ⟨pre, h1, h2, h3⟩
          cases pre with
          | nil => simp at h2
          | cons d pre' =>
            rw [List.cons_append] at h1
            injection h1 with hd htl
            refine (ih cs' r).mpr ⟨pre', htl, by simpa using h2, ?_⟩
            intro x hx
            exact h3 x (List.mem_cons_of_mem d hx)
      | false =>
        have hstep : matchRun p (n + 1) (c :: cs') = none := by
          simp [matchRun, hc]
        rw [hstep]
        constructor
        · intro h; cases h
        · rintro ⟨pre, h1, h2, h3⟩
          cases pre with
          | nil => simp at h2
          | cons d pre' =>
            rw [List.cons_append] at h1
            injection h1 with hd htl
            have hpd := h3 d (List.mem_cons_self d pre')
            rw [← hd, hc] at hpd
            cases hpd

theorem idConsume_eq_some (n1 n2 : Nat) (cs r : List Char) :
    idConsume n1 n2 cs = some r ↔
      ∃ a b c0, cs = a ++ b ++ [c0] ++ r ∧
        a.length = n1 ∧ (∀ x ∈ a, isUpperAZ x = true) ∧
        b.length = n2 ∧ (∀ x ∈ b, isDigit09 x = true) ∧
        isUpperAZ c0 = true := by
  constructor
  · intro h
    simp only [idConsume, Option.bind_eq_some] at h
    obtain ⟨r2, ⟨r1, h1, h2⟩, h3⟩ := h
    obtain ⟨a, ha1, ha2, ha3⟩ := (matchRun_eq_some _ _ _ _).mp h1
    obtain ⟨b, hb1, hb2, hb3⟩ := (matchRun_eq_some _ _ _ _).mp h2
    obtain ⟨cl, hc1, hc2, hc3⟩ := (matchRun_eq_some _ _ _ _).mp h3
    obtain ⟨c0, rfl⟩ := List.length_eq_one.mp hc2
    refine ⟨a, b, c0, ?_, ha2, ha3, hb2, hb3, hc3 c0 (by simp)⟩
    subst hc1
    subst hb1
    subst ha1
    simp [List.append_assoc]
  · rintro ⟨a, b, c0, rfl, ha2, ha3, hb2, hb3, hc⟩
    simp only [idConsume, Option.bind_eq_some]
    refine ⟨[c0] ++ r, ⟨b ++ ([c0] ++ r), ?_, ?_⟩, ?_⟩
    · exact (matchRun_eq_some _ _ _ _).mpr ⟨a, by simp [List.append_assoc], ha2, ha3⟩
    · exact (matchRun_eq_some _ _ _ _).mpr ⟨b, rfl, hb2, hb3⟩
    · refine (matchRun_eq_some _ _ _ _).mpr ⟨[c0], rfl, rfl, ?_⟩
      intro x hx
      rw [List.mem_singleton] at hx
      subst hx
      exact hc

theorem idFullB_iff (n1 n2 : Nat) (cs : List Char) :
    idFullB n1 n2 cs = true ↔ idSpec n1 n2 cs := by
  unfold idFullB
  cases h : idConsume n1 n2 cs with
  | none =>
    constructor
    · intro hF; simp at hF
    · rintro ⟨a, b, c0, rfl, ha2, ha3, hb2, hb3, hc⟩
      have := (idConsume_eq_some n1 n2 (a ++ b ++ [c0]) []).mpr
        ⟨a, b, c0, by simp, ha2, ha3, hb2, hb3, hc⟩
      rw [h] at this
      cases this
  | some r =>
    obtain ⟨a, b, c0, heq0, ha2, ha3, hb2, hb3, hc⟩ := (idConsume_eq_some n1 n2 cs r).mp h
    constructor
    · intro hr
      have hr0 : (r == ([] : List Char)) = true := hr
      have hr' : r = [] := by simpa using hr0
      subst hr'
      exact ⟨a, b, c0, by simpa using heq0, ha2, ha3, hb2, hb3, hc⟩
    · rintro ⟨a', b', c0', heq, ha2', ha3', hb2', hb3', hc'⟩
      rw [heq0] at heq
      have hlen := congrArg List.length heq
      simp only [List.length_append, List.length_singleton] at hlen
      rw [ha2, hb2, ha2', hb2'] at hlen
      have hr : r = [] := List.length_eq_zero.mp (by omega)
      subst hr
      rfl

theorem idDollarB_iff (n1 n2 : Nat) (cs : List Char) :
    idDollarB n1 n2 cs = true ↔
      (idSpec n1 n2 cs ∨ ∃ t, cs = t ++ ['\n'] ∧ idSpec n1 n2 t) := by
  unfold idDollarB
  cases h : idConsume n1 n2 cs with
  | none =>
    constructor
    · intro hF; simp at hF
    · intro hs
      rcases hs with ⟨a, b, c0, rfl, ha2, ha3, hb2, hb3, hc⟩ |
        ⟨t, rfl, a, b, c0, rfl, ha2, ha3, hb2, hb3, hc⟩
      · have := (idConsume_eq_some n1 n2 (a ++ b ++ [c0]) []).mpr
          ⟨a, b, c0, by simp, ha2, ha3, hb2, hb3, hc⟩
        rw [h] at this
        cases this
      · have := (idConsume_eq_some n1 n2 (a ++ b ++ [c0] ++ ['\n']) ['\n']).mpr
          ⟨a, b, c0, by simp, ha2, ha3, hb2, hb3, hc⟩
        rw [h] at this
        cases this
  | some r =>
    obtain ⟨a, b, c0, heq0, ha2, ha3, hb2, hb3, hc⟩ := (idConsume_eq_some n1 n2 cs r).mp h
    constructor
    · intro hr
      have hr0 : ((r == ([] : List Char)) || (r == ['\n'])) = true := hr
      rcases Bool.or_eq_true_iff.mp hr0 with h0 | h1
      · have hr' : r = [] := by simpa using h0
        subst hr'
        exact Or.inl ⟨a, b, c0, by simpa using heq0, ha2, ha3, hb2, hb3, hc⟩
      · have hr' : r = ['\n'] := by simpa using h1
        subst hr'
        exact Or.inr ⟨a ++ b ++ [c0], by simpa [List.append_assoc] using heq0,
          a, b, c0, rfl, ha2, ha3, hb2, hb3, hc⟩
    · intro hs
      rcases hs with ⟨a', b', c0', heq, ha2', ha3', hb2', hb3', hc'⟩ |
        ⟨t, heq, a', b', c0', rfl, ha2', ha3', hb2', hb3', hc'⟩
      · rw [heq0] at heq
        have hlen := congrArg List.length heq
        simp only [List.length_append, List.length_singleton] at hlen
        rw [ha2, hb2, ha2', hb2'] at hlen
        have hr : r = [] := List.length_eq_zero.mp (by omega)
        subst hr
        rfl
      · rw [heq0] at heq
        have hlen := congrArg List.length heq
        simp only [List.length_append, List.length_singleton] at hlen
        rw [ha2, hb2, ha2', hb2'] at hlen
        have hr1 : r.length = 1 := by omega
        obtain ⟨x, rfl⟩ := List.length_eq_one.mp hr1
        have hx := congrArg (fun l => l.getLast?) heq
        simp only [List.append_assoc, List.getLast?_append, List.getLast?_concat,
          List.getLast?_singleton, Option.or, Option.some.injEq] at hx
        subst hx
        rfl

theorem idSpec_nil (n1 n2 : Nat) : ¬ idSpec n1 n2 [] := by
  rintro ⟨a, b, c0, heq, -, -, -, -, -⟩
  have hl := congrArg List.length heq
  simp only [List.length_nil, List.length_append, List.length_singleton] at hl
  omega

/-- C5 counterexample: the claim says PAN validation "returns false for every
string that violates the length, the character classes, or their order", but
`ValidationEngine.is_valid_pan` accepts the all-lowercase string
`"abcde1234f"` (it case-folds first), and `DataValidator.validate_pan`
accepts the 11-character string `"ABCDE1234F\n"` (the `$` anchor also matches
before a final newline). -/
theorem c5_counterexample :
    is_valid_pan "abcde1234f" = true ∧ (¬ idSpec 5 4 "abcde1234f".data) ∧
    dv_validate_pan "ABCDE1234F\n" = true ∧ "ABCDE1234F\n".length = 11 ∧
    (¬ idSpec 5 4 "ABCDE1234F\n".data) := by
  refine ⟨by decide, ?_, by decide, by decide, ?_⟩
  · intro hs
    exact absurd ((idFullB_iff 5 4 "abcde1234f".data).mpr hs) (by decide)
  · intro hs
    exact absurd ((idFullB_iff 5 4 "ABCDE1234F\n".data).mpr hs) (by decide)

/-- C5 amended: exact characterization of the five validators.  Each accepts
every string matching its pattern (so in particular every 10-character
`[A-Z]{5}[0-9]{4}[A-Z]` string is accepted by all PAN validators); in
addition `is_valid_pan`/`is_valid_tan`/`pv_validate_pan` case-fold before
matching (so they accept any string whose uppercased form matches), and the
`$`-anchored `dv_validate_pan`/`dv_validate_tan`/`pv_validate_pan` also
accept a matching string followed by one final newline.  All other strings
are rejected. -/
theorem c5_amended :
    (∀ s : String, is_valid_pan s = true ↔ idSpec 5 4 (s.data.map pyUpperChar)) ∧
    (∀ s : String, is_valid_tan s = true ↔ idSpec 4 5 (s.data.map pyUpperChar)) ∧
    (∀ s : String, dv_validate_pan s = true ↔
      (idSpec 5 4 s.data ∨ ∃ t, s.data = t ++ ['\n'] ∧ idSpec 5 4 t)) ∧
    (∀ s : String, dv_validate_tan s = true ↔
      (idSpec 4 5 s.data ∨ ∃ t, s.data = t ++ ['\n'] ∧ idSpec 4 5 t)) ∧
    (∀ s : String, pv_validate_pan s = true ↔
      (idSpec 5 4 (s.data.map pyUpperChar) ∨
        ∃ t, s.data.map pyUpperChar = t ++ ['\n'] ∧ idSpec 5 4 t)) := by
  refine ⟨?_, ?_, ?_, ?_, ?_⟩
  · intro s
    by_cases hs : s = ""
    · subst hs
      constructor
      · intro h; simp [is_valid_pan] at h
      · intro h; exact absurd h (idSpec_nil 5 4)
    · simp only [is_valid_pan, if_neg hs]
      exact idFullB_iff 5 4 _
  · intro s
    by_cases hs : s = ""
    · subst hs
      constructor
      · intro h; simp [is_valid_tan] at h
      · intro h; exact absurd h (idSpec_nil 4 5)
    · simp only [is_valid_tan, if_neg hs]
      exact idFullB_iff 4 5 _
  · intro s
    by_cases hs : s = ""
    · subst hs
      constructor
      · intro h; simp [dv_validate_pan] at h
      · rintro (h | ⟨t, ht, -⟩)
        · exact absurd h (idSpec_nil 5 4)
        · exact absurd (congrArg List.length ht) (by simp)
    · simp only [dv_validate_pan, if_neg hs]
      exact idDollarB_iff 5 4 _
  · intro s
    by_cases hs : s = ""
    · subst hs
      constructor
      · intro h; simp [dv_validate_tan] at h
      · rintro (h | ⟨t, ht, -⟩)
        · exact absurd h (idSpec_nil 4 5)
        · exact absurd (congrArg List.length ht) (by simp)
    · simp only [dv_validate_tan, if_neg hs]
      exact idDollarB_iff 4 5 _
  · intro s
    by_cases hs : s = ""
    · subst hs
      constructor
      · intro h; simp [pv_validate_pan] at h
      · rintro (h | ⟨t, ht, -⟩)
        · exact absurd h (idSpec_nil 5 4)
        · exact absurd (congrArg List.length ht) (by simp)
    · simp only [pv_validate_pan, if_neg hs]
      exact idDollarB_iff 5 4 _

/-- Witness for C5 amended: concrete evaluations obtained through the
characterization. -/
theorem c5_amended_witness :
    is_valid_pan "ABCDE1234F" = true ∧ dv_validate_pan "ABCDE1234F" = true ∧
    dv_validate_tan "MUMX12345A" = true ∧ is_valid_pan "ABCDE123F" = false := by
  refine ⟨?_, ?_, ?_, ?_⟩
  · exact (c5_amended.1 "ABCDE1234F").mpr
      ⟨['A', 'B', 'C', 'D', 'E'], ['1', '2', '3', '4'], 'F',
        by decide, by decide, by decide, by decide, by decide, by decide⟩
  · exact (c5_amended.2.2.1 "ABCDE1234F").mpr
      (Or.inl ⟨['A', 'B', 'C', 'D', 'E'], ['1', '2', '3', '4'], 'F',
        by decide, by decide, by decide, by decide, by decide, by decide⟩)
  · exact (c5_amended.2.2.2.1 "MUMX12345A").mpr
      (Or.inl ⟨['M', 'U', 'M', 'X'], ['1', '2', '3', '4', '5'], 'A',
        by decide, by decide, by decide, by decide, by decide, by decide⟩)
  · have h := (c5_amended.1 "ABCDE123F")
    by_contra hne
    have : is_valid_pan "ABCDE123F" = true := by
      cases hv : is_valid_pan "ABCDE123F" with
      | true => rfl
      | false => exact absurd hv hne
    have hspec := h.mp this
    obtain ⟨a, b, c0, heq, ha2, -, hb2, -, -⟩ := hspec
    have hl := congrArg List.length heq
    simp only [List.length_append, List.length_singleton, ha2, hb2] at hl
    exact absurd hl (by decide)

/-! ## JSON-like documents

`JVal` models the Python values stored in the ITR JSON: `None`, strings,
ints, lists and (insertion-ordered) dicts.  A dict is an association list
with unique keys; `aset` overwrites in place or appends a new key at the
end, exactly like a Python dict assignment. -/

inductive JVal where
  | null : JVal
  | str : String → JVal
  | int : ℤ → JVal
  | arr : List JVal → JVal
  | obj : List (String × JVal) → JVal

abbrev JObj := List (String × JVal)

def alookup : JObj → String → Option JVal
  | [], _ => none
  | (k, v) :: rest, key => if k = key then some v else alookup rest key

def aset : JObj → String → JVal → JObj
  | [], key, v => [(key, v)]
  | (k, w) :: rest, key, v =>
    if k = key then (k, v) :: rest else (k, w) :: aset rest key v

theorem alookup_aset_self (m : JObj) (k : String) (v : JVal) :
    alookup (aset m k v) k = some v := by
  induction m with
  | nil => simp [aset, alookup]
  | cons kv rest ih =>
    obtain ⟨k0, v0⟩ := kv
    by_cases h : k0 = k
    · simp [aset, alookup, h]
    · simp [aset, alookup, h, ih]

/-! ## Path handling for the Override/Patch Engine

Python's `path.split('.')`, `key.index('[')`-based bracket slicing and
`int(...)` parsing, modelled structurally on character lists. -/

/-- Python `path.split('.')`. -/
def splitDots : List Char → List (List Char)
  | [] => [[]]
  | c :: rest =>
    let r := splitDots rest
    if c = '.' then [] :: r
    else
      match r with
      | [] => [[c]]
      | h :: t => (c :: h) :: t

def containsC (c : Char) : List Char → Bool
  | [] => false
  | d :: rest => (d = c) || containsC c rest

/-- First index of `c` (Python `str.index`), if present. -/
def findIdx (c : Char) : List Char → Option Nat
  | [] => none
  | d :: rest => if d = c then some 0 else (findIdx c rest).map (· + 1)

/-- The `'[' in key and ']' in key` test together with
`key[:key.index('[')]` and `key[key.index('[')+1:key.index(']')]`. -/
def parseBracket (k : List Char) : Option (List Char × List Char) :=
  match findIdx '[' k, findIdx ']' k with
  | some i, some j => some (k.take i, (k.drop (i + 1)).take (j - (i + 1)))
  | _, _ => none

/-- Nonempty all-digit numeral value (ASCII model of `str.isdigit`
followed by `int`). -/
def digitsVal (cs : List Char) : Option Nat :=
  if cs.isEmpty then none
  else if cs.all isDigit09 then
    some (cs.foldl (fun acc c => acc * 10 + (c.toNat - 48)) 0)
  else none

/-- Python `int(s)` on the index text of a bracketed segment (optional sign,
then decimal digits; anything else raises `ValueError`). -/
def parsePyInt (cs : List Char) : Option ℤ :=
  match cs with
  | '-' :: ds => (digitsVal ds).map (fun n => -(n : ℤ))
  | '+' :: ds => (digitsVal ds).map (fun n => (n : ℤ))
  | ds => (digitsVal ds).map (fun n => (n : ℤ))

def isPyWs (c : Char) : Bool :=
  c = ' ' || c = '\t' || c = '\n' || c = '\r' || c = '\x0b' || c = '\x0c'

/-- Python `str.strip()` (ASCII whitespace). -/
def pyStrip (cs : List Char) : List Char :=
  ((cs.dropWhile isPyWs).reverse.dropWhile isPyWs).reverse

def listInfixB (n h : List Char) : Bool :=
  match h with
  | [] => n.isEmpty
  | _ :: t => n.isPrefixOf h || listInfixB n t

/-- The currency-keyword test of `_set_nested_value`
(`any(keyword in final_key.lower() for keyword in [...])`). -/
def hasCurrencyKeyword (k : String) : Bool :=
  ["salary", "income", "tds", "tax", "amount", "deduction", "refund"].any
    (fun kw => listInfixB kw.data (k.data.map pyLowerChar))

/-- `int(float(clean))` on a string of digits and dots (which is what the
preceding `isdigit` check guarantees): zero dots parse as an integer, one
dot truncates at the dot, two or more raise `ValueError`.  (Python parses
via IEEE doubles, which round above 2^53; the exact model agrees on all
inputs appearing in this file.) -/
def floatTruncOfClean (cs : List Char) : Option ℤ :=
  let dots := (cs.filter (fun c => c = '.')).length
  if dots = 0 then (digitsVal cs).map (fun n => (n : ℤ))
  else if dots = 1 then
    some ((cs.takeWhile (fun c => !(c = '.'))).foldl
      (fun acc c => acc * 10 + ((c.toNat : ℤ) - 48)) 0)
  else none

/-- The string-to-integer coercion heuristic applied to the final path
segment by `_set_nested_value` (src/itd_mapper.py lines 622-634): a
nonempty string stored under a currency-keyword key has commas and rupee
signs stripped and, if the rest is digits (and at most one dot), is stored
as a truncated integer; any failure leaves the value as given. -/
def coerceValue (finalKey : String) (v : JVal) : JVal :=
  match v with
  | JVal.str s =>
    if (pyStrip s.data).isEmpty then JVal.str s
    else if hasCurrencyKeyword finalKey then
      let clean := pyStrip ((s.data.filter (fun c => !(c = ','))).filter
        (fun c => !(c = '₹')))
      let digitsOnly := clean.filter (fun c => !(c = '.'))
      if !digitsOnly.isEmpty && digitsOnly.all isDigit09 then
        match floatTruncOfClean clean with
        | some n => JVal.int n
        | none => JVal.str s
      else JVal.str s
    else JVal.str s
  | _ => v

/-- Grow a Python list with `{}` entries until `idx` is a valid position
(the `while len(current[array_key]) <= index: append({})` loop). -/
def grow (l : List JVal) (idx : Nat) : List JVal :=
  l ++ List.replicate (idx + 1 - l.length) (JVal.obj [])

def growSet (l : List JVal) (idx : Nat) (v : JVal) : List JVal :=
  (grow l idx).set idx v

/-- The key-walking loop of `ITREnhancer._set_nested_value`
(src/itd_mapper.py lines 585-634), as a functional update.  A step that
would raise in Python (navigating into a non-dict, indexing a non-list,
an unparsable bracket index, a negative index out of range) returns the
object with exactly the mutations performed before the exception — the
caller catches the exception and keeps the partially-updated document. -/
def goKeys : List String → JObj → JVal → JObj
  | [], m, _ => m
  | [k], m, v =>
    match parseBracket k.data with
    | none => aset m k (coerceValue k v)
    | some (baseCs, idxCs) =>
      match parsePyInt idxCs with
      | none => m
      | some idx =>
        let base := String.mk baseCs
        match alookup m base with
        | none =>
          if 0 ≤ idx then aset m base (JVal.arr (growSet [] idx.toNat v))
          else aset m base (JVal.arr [])
        | some (JVal.arr l) =>
          if 0 ≤ idx then aset m base (JVal.arr (growSet l idx.toNat v))
          else
            let pos : ℤ := (l.length : ℤ) + idx
            if 0 ≤ pos then aset m base (JVal.arr (l.set pos.toNat v)) else m
        | some _ => m
  | k :: rest, m, v =>
    match parseBracket k.data with
    | none =>
      match alookup m k with
      | none => aset m k (JVal.obj (goKeys rest [] v))
      | some (JVal.obj c) => aset m k (JVal.obj (goKeys rest c v))
      | some _ => m
    | some (baseCs, idxCs) =>
      match parsePyInt idxCs with
      | none => m
      | some idx =>
        let base := String.mk baseCs
        match alookup m base with
        | none =>
          if 0 ≤ idx then
            aset m base (JVal.arr
              ((grow [] idx.toNat).set idx.toNat (JVal.obj (goKeys rest [] v))))
          else aset m base (JVal.arr [])
        | some (JVal.arr l) =>
          if 0 ≤ idx then
            match (grow l idx.toNat).get? idx.toNat with
            | some (JVal.obj c) =>
              aset m base (JVal.arr
                ((grow l idx.toNat).set idx.toNat (JVal.obj (goKeys rest c v))))
            | _ => m
          else
            let pos : ℤ := (l.length : ℤ) + idx
            if 0 ≤ pos then
              match l.get? pos.toNat with
              | some (JVal.obj c) =>
                aset m base (JVal.arr (l.set pos.toNat (JVal.obj (goKeys rest c v))))
              | _ => m
            else m
        | some _ => m

/-- The `ITR.ITR1.` / `ITR1.` prefix stripping of `_set_nested_value`
(src/itd_mapper.py lines 575-583).  Note the source drops only 8
characters for the 9-character prefix `ITR.ITR1.`. -/
def stripITRPath (cs : List Char) : List Char :=
  if ("ITR.ITR1.".data).isPrefixOf cs then cs.drop 8
  else if ("ITR1.".data).isPrefixOf cs then cs.drop 5
  else cs

/-- `ITREnhancer._set_nested_value` (src/itd_mapper.py lines 572-634).
All three prefix branches resolve the target against `ITR.ITR1`; a missing
`ITR`/`ITR1` level makes Python mutate a detached fresh dict (document
unchanged), and a non-dict level raises before mutating. -/
def set_nested_value (data : JObj) (path : String) (v : JVal) : JObj :=
  let keys := (splitDots (stripITRPath path.data)).map String.mk
  match alookup data "ITR" with
  | some (JVal.obj io) =>
    match alookup io "ITR1" with
    | some (JVal.obj t) =>
      aset data "ITR" (JVal.obj (aset io "ITR1" (JVal.obj (goKeys keys t v))))
    | some _ => data
    | none => data
  | some _ => data
  | none => data

/-- The per-override body of `ITREnhancer.apply_overrides`
(src/itd_mapper.py lines 556-568): unwrap an AI-suggestion dict, then set. -/
def unwrapSuggestion (v : JVal) : JVal :=
  match v with
  | JVal.obj m =>
    match alookup m "suggested_value" with
    | some sv => sv
    | none => JVal.obj m
  | _ => v

def applyOverride (d : JObj) (p : String) (v : JVal) : JObj :=
  set_nested_value d p (unwrapSuggestion v)

/-- `ITREnhancer.apply_overrides` (src/itd_mapper.py lines 550-570); the
`deepcopy` of the input is the identity at this value level. -/
def apply_overrides (d : JObj) (ovs : List (String × JVal)) : JObj :=
  ovs.foldl (fun acc pv => applyOverride acc pv.1 pv.2) d

/-- `SmartRecommendationEngine._get_nested_value`
(src/ai_agent.py lines 417-427). -/
def getKeys : List String → JVal → Option JVal
  | [], cur => some cur
  | k :: rest, cur =>
    match cur with
    | JVal.obj m =>
      match alookup m k with
      | some v => getKeys rest v
      | none => none
    | _ => none

def get_nested (d : JVal) (path : String) : Option JVal :=
  getKeys ((splitDots path.data).map String.mk) d

/-- The `ITR.ITR1` subobject of a document (`itr_data.get('ITR', {}).get('ITR1', {})`). -/
def itr1Of (d : JObj) : JVal :=
  match alookup d "ITR" with
  | some (JVal.obj m) =>
    match alookup m "ITR1" with
    | some v => v
    | none => JVal.null
  | _ => JVal.null

/-- C7: applying the Override/Patch Engine with an empty override batch
returns a document deep-equal to the input (and, the engine being modelled
as a pure function on values after its `deepcopy`, the input itself is
untouched). -/
theorem c7_empty_overrides (d : JObj) : apply_overrides d [] = d := rfl

/-- A minimal well-formed document for exercising the override engine. -/
def c2doc : JObj :=
  [("ITR", JVal.obj [("ITR1", JVal.obj
    [("PersonalInfo", JVal.obj [("AssesseeName", JVal.str "REPLACE_WITH_NAME")])])])]

/-- C2: the spec says a leading `ITR.ITR1.` prefix is stripped so that the
prefixed, `ITR1.`-prefixed and bare forms of a path all set the same leaf.
The code slices `path[8:]` for the 9-character prefix `ITR.ITR1.` (its own
comment says "Remove 'ITR.ITR1.'"), leaving a leading dot, so the override
lands under a spurious empty-string key and the real leaf is unchanged,
while the `ITR1.` and bare forms do update the leaf. -/
theorem c2_prefix_bug :
    get_nested (itr1Of (apply_overrides c2doc
        [("ITR.ITR1.PersonalInfo.AssesseeName", JVal.str "Rajesh Kumar")]))
      "PersonalInfo.AssesseeName" = some (JVal.str "REPLACE_WITH_NAME") ∧
    get_nested (itr1Of (apply_overrides c2doc
        [("ITR.ITR1.PersonalInfo.AssesseeName", JVal.str "Rajesh Kumar")]))
      "" = some (JVal.obj [("PersonalInfo",
        JVal.obj [("AssesseeName", JVal.str "Rajesh Kumar")])]) ∧
    get_nested (itr1Of (apply_overrides c2doc
        [("PersonalInfo.AssesseeName", JVal.str "Rajesh Kumar")]))
      "PersonalInfo.AssesseeName" = some (JVal.str "Rajesh Kumar") ∧
    get_nested (itr1Of (apply_overrides c2doc
        [("ITR1.PersonalInfo.AssesseeName", JVal.str "Rajesh Kumar")]))
      "PersonalInfo.AssesseeName" = some (JVal.str "Rajesh Kumar") ∧
    apply_overrides c2doc [("ITR.ITR1.PersonalInfo.AssesseeName", JVal.str "Rajesh Kumar")] ≠
      apply_overrides c2doc [("PersonalInfo.AssesseeName", JVal.str "Rajesh Kumar")] := by
  refine ⟨rfl, rfl, rfl, rfl, ?_⟩
  have hL : get_nested (itr1Of (apply_overrides c2doc
      [("ITR.ITR1.PersonalInfo.AssesseeName", JVal.str "Rajesh Kumar")]))
      "PersonalInfo.AssesseeName" = some (JVal.str "REPLACE_WITH_NAME") := rfl
  have hR : get_nested (itr1Of (apply_overrides c2doc
      [("PersonalInfo.AssesseeName", JVal.str "Rajesh Kumar")]))
      "PersonalInfo.AssesseeName" = some (JVal.str "Rajesh Kumar") := rfl
  intro h
  rw [h, hR] at hL
  simp at hL

/-- A minimal document carrying the `GrossSalary` leaf. -/
def c10doc : JObj :=
  [("ITR", JVal.obj [("ITR1", JVal.obj
    [("ITR1_IncomeDeductions", JVal.obj [("GrossSalary", JVal.int 0)])])])]

/-- C10 counterexample: the claim says any non-suggestion value "is stored
as given", but a string value under a currency-keyword final segment is
coerced: storing the string `"1,50,000"` at `ITR1_IncomeDeductions.GrossSalary`
stores the integer 150000, not the string. -/
theorem c10_counterexample :
    get_nested (itr1Of (apply_overrides c10doc
      [("ITR1_IncomeDeductions.GrossSalary", JVal.str "1,50,000")]))
      "ITR1_IncomeDeductions.GrossSalary" = some (JVal.int 150000) ∧
    JVal.int 150000 ≠ JVal.str "1,50,000" := by
  refine ⟨rfl, ?_⟩
  intro h
  cases h

/-- A path segment free of the bracket syntax. -/
def plainKey (k : String) : Bool :=
  !(containsC '[' k.data && containsC ']' k.data)

theorem findIdx_eq_none (c : Char) (l : List Char) (h : containsC c l = false) :
    findIdx c l = none := by
  induction l with
  | nil => rfl
  | cons d rest ih =>
    simp only [containsC, Bool.or_eq_false_iff, decide_eq_false_iff_not] at h
    simp [findIdx, h.1, ih h.2]

theorem parseBracket_none_of_plain (k : String) (h : plainKey k = true) :
    parseBracket k.data = none := by
  unfold parseBracket
  cases hA : containsC '[' k.data with
  | false =>
    rw [findIdx_eq_none '[' k.data hA]
  | true =>
    cases hB : containsC ']' k.data with
    | false =>
      rw [findIdx_eq_none ']' k.data hB]
      cases findIdx '[' k.data <;> rfl
    | true =>
      exfalso
      unfold plainKey at h
      rw [hA, hB] at h
      simp at h

/-- The navigability condition under which `_set_nested_value` walks a plain
dotted path without raising: every existing intermediate level is a dict
(missing levels are created on the fly). -/
def okKeys : JObj → List String → Bool
  | _, [] => true
  | _, [_] => true
  | m, k :: rest =>
    match alookup m k with
    | none => okKeys [] rest
    | some (JVal.obj c) => okKeys c rest
    | some _ => false

theorem okKeys_nil : ∀ ks : List String, okKeys ([] : JObj) ks = true := by
  intro ks
  cases ks with
  | nil => rfl
  | cons k rest =>
    cases rest with
    | nil => rfl
    | cons k2 r2 =>
      induction r2 generalizing k k2 with
      | nil => simp [okKeys, alookup]
      | cons k3 r3 ih => simp [okKeys, alookup]; exact ih k2 k3

theorem getKeys_set (v : JVal) :
    ∀ (ks : List String) (k : String) (m : JObj),
      (∀ x ∈ ks, plainKey x = true) → plainKey k = true →
      okKeys m (ks ++ [k]) = true →
      getKeys (ks ++ [k]) (JVal.obj (goKeys (ks ++ [k]) m v)) =
        some (coerceValue k v) := by
  intro ks
  induction ks with
  | nil =>
    intro k m _ hpk _
    have hpb : parseBracket k.data = none := parseBracket_none_of_plain k hpk
    simp [goKeys, hpb, getKeys, alookup_aset_self]
  | cons k0 ks' ih =>
    intro k m hplain hpk hok
    have hp0 : plainKey k0 = true := hplain k0 (by simp)
    have hpb0 : parseBracket k0.data = none := parseBracket_none_of_plain k0 hp0
    have hplain' : ∀ x ∈ ks', plainKey x = true := fun x hx => hplain x (by simp [hx])
    cases hl : alookup m k0 with
    | none =>
      have hgo : goKeys ((k0 :: ks') ++ [k]) m v =
          aset m k0 (JVal.obj (goKeys (ks' ++ [k]) [] v)) := by
        cases ks' with
        | nil => simp [goKeys, hpb0, hl]
        | cons k1 ks'' => simp [goKeys, hpb0, hl]
      rw [hgo, List.cons_append]
      simp only [getKeys, alookup_aset_self]
      exact ih k ([] : JObj) hplain' hpk (okKeys_nil _)
    | some w =>
      cases w with
      | obj c =>
        have hgo : goKeys ((k0 :: ks') ++ [k]) m v =
            aset m k0 (JVal.obj (goKeys (ks' ++ [k]) c v)) := by
          cases ks' with
          | nil => simp [goKeys, hpb0, hl]
          | cons k1 ks'' => simp [goKeys, hpb0, hl]
        have hok' : okKeys c (ks' ++ [k]) = true := by
          cases ks' with
          | nil => rfl
          | cons k1 ks'' =>
            rw [List.cons_append] at hok
            simpa [okKeys, hl] using hok
        rw [hgo, List.cons_append]
        simp only [getKeys, alookup_aset_self]
        exact ih k c hplain' hpk hok'
      | null =>
        rw [List.cons_append] at hok
        simp [okKeys, hl] at hok
      | str s =>
        rw [List.cons_append] at hok
        simp [okKeys, hl] at hok
      | int n =>
        rw [List.cons_append] at hok
        simp [okKeys, hl] at hok
      | arr l =>
        rw [List.cons_append] at hok
        simp [okKeys, hl] at hok

/-- C10 amended: the Override/Patch Engine stores, at the target path, the
`suggested_value` entry when the override's value is a dict containing that
key, and the value itself otherwise — in both cases subject to the final
segment's currency-keyword string coercion (`coerceValue`); non-string
values are therefore always stored as given, and strings are stored as
given unless the final key names a currency field and the string is
numeric after separator stripping. -/
theorem c10_amended (d io t : JObj) (p : String) (v : JVal)
    (ks : List String) (k : String)
    (hITR : alookup d "ITR" = some (JVal.obj io))
    (hITR1 : alookup io "ITR1" = some (JVal.obj t))
    (hp1 : ("ITR.ITR1.".data).isPrefixOf p.data = false)
    (hp2 : ("ITR1.".data).isPrefixOf p.data = false)
    (hsplit : (splitDots p.data).map String.mk = ks ++ [k])
    (hplain : ∀ x ∈ ks, plainKey x = true) (hpk : plainKey k = true)
    (hok : okKeys t (ks ++ [k]) = true) :
    get_nested (itr1Of (apply_overrides d [(p, v)])) p =
      some (coerceValue k (unwrapSuggestion v)) := by
  have hstrip : stripITRPath p.data = p.data := by
    unfold stripITRPath
    rw [hp1, hp2]
    rfl
  have happ : apply_overrides d [(p, v)] =
      aset d "ITR" (JVal.obj (aset io "ITR1"
        (JVal.obj (goKeys (ks ++ [k]) t (unwrapSuggestion v))))) := by
    show applyOverride d p v = _
    unfold applyOverride set_nested_value
    rw [hstrip, hsplit]
    simp only [hITR, hITR1]
  rw [happ]
  have hi : itr1Of (aset d "ITR" (JVal.obj (aset io "ITR1"
      (JVal.obj (goKeys (ks ++ [k]) t (unwrapSuggestion v)))))) =
      JVal.obj (goKeys (ks ++ [k]) t (unwrapSuggestion v)) := by
    simp only [itr1Of, alookup_aset_self]
  rw [hi]
  unfold get_nested
  rw [hsplit]
  exact getKeys_set (unwrapSuggestion v) ks k t hplain hpk hok

/-- Witness for C10 amended: a suggestion-shaped override at a name field is
stored unwrapped and uncoerced; a plain string override at the salary field
is stored as the coerced integer. -/
theorem c10_amended_witness :
    get_nested (itr1Of (apply_overrides c2doc
      [("PersonalInfo.AssesseeName",
        JVal.obj [("suggested_value", JVal.str "Rajesh Kumar"),
                  ("reason", JVal.str "Normalized employee name to proper case"),
                  ("confidence", JVal.str "high")])]))
      "PersonalInfo.AssesseeName" = some (JVal.str "Rajesh Kumar") ∧
    get_nested (itr1Of (apply_overrides c10doc
      [("ITR1_IncomeDeductions.GrossSalary", JVal.str "1,50,000")]))
      "ITR1_IncomeDeductions.GrossSalary" = some (JVal.int 150000) := by
  constructor
  · have h := c10_amended c2doc
      [("ITR1", JVal.obj [("PersonalInfo",
        JVal.obj [("AssesseeName", JVal.str "REPLACE_WITH_NAME")])])]
      [("PersonalInfo", JVal.obj [("AssesseeName", JVal.str "REPLACE_WITH_NAME")])]
      "PersonalInfo.AssesseeName"
      (JVal.obj [("suggested_value", JVal.str "Rajesh Kumar"),
                 ("reason", JVal.str "Normalized employee name to proper case"),
                 ("confidence", JVal.str "high")])
      ["PersonalInfo"] "AssesseeName"
      rfl rfl rfl rfl rfl (by intro x hx; simp at hx; subst hx; rfl) rfl rfl
    exact h.trans (by rfl)
  · have h := c10_amended c10doc
      [("ITR1", JVal.obj [("ITR1_IncomeDeductions",
        JVal.obj [("GrossSalary", JVal.int 0)])])]
      [("ITR1_IncomeDeductions", JVal.obj [("GrossSalary", JVal.int 0)])]
      "ITR1_IncomeDeductions.GrossSalary"
      (JVal.str "1,50,000")
      ["ITR1_IncomeDeductions"] "GrossSalary"
      rfl rfl rfl rfl rfl (by intro x hx; simp at hx; subst hx; rfl) rfl rfl
    exact h.trans (by rfl)

/-! ## Schema Mapper (`src/itd_mapper.py`, `ITRSchemaBuilder` and
`Form16ToITRMapper`)

The mapper's input is `asdict(ExtractionResult)` (src/extractor.py line 476):
every field key is present, unpopulated string fields are `None`, amounts are
ints, `quarterly_tds`/`deductions` are dicts keyed `Q1..Q4` /
`section_80C/D/G`.  The source's conditional in-place mutations of the
template are rendered as conditional field values; untouched template fields
keep their template values. -/

/-- The `quarterly_tds` dict of an `ExtractionRecord` (keys `Q1..Q4`, each
possibly absent). -/
structure Quarterly where
  q1 : Option ℤ
  q2 : Option ℤ
  q3 : Option ℤ
  q4 : Option ℤ

/-- Python truthiness of the `quarterly_tds` dict. -/
def Quarterly.isEmptyQ (q : Quarterly) : Bool :=
  q.q1.isNone && q.q2.isNone && q.q3.isNone && q.q4.isNone

/-- The `deductions` dict (each key read via `.get(…, 0)`). -/
structure DeductionsIn where
  section_80C : ℤ
  section_80D : ℤ
  section_80G : ℤ

/-- `asdict(ExtractionResult)`, restricted to the fields the mapper reads. -/
structure Form16Input where
  company_name : Option String
  employee_name : Option String
  pan_of_employee : Option String
  tan : Option String
  assessment_year : Option String
  gross_salary_paid : ℤ
  total_tds_deducted : ℤ
  quarterly_tds : Quarterly
  deductions : DeductionsIn

/-- Python truthiness of an optional string. -/
def truthyS : Option String → Bool
  | some s => !(s == "")
  | none => false

def jOptStr : Option String → JVal
  | some s => JVal.str s
  | none => JVal.null

/-- Decimal rendering of a natural number (fuel-structural so that it
kernel-reduces; fuel `n+1` always suffices). -/
def natCharsGo : Nat → Nat → List Char
  | 0, _ => []
  | fuel + 1, n =>
    if n < 10 then [Char.ofNat (48 + n)]
    else natCharsGo fuel (n / 10) ++ [Char.ofNat (48 + n % 10)]

def natToStr (n : Nat) : String := String.mk (natCharsGo (n + 1) n)

/-- Python `str.split()` (whitespace runs, no empty words). -/
def splitWsGo : List Char → List Char → List (List Char)
  | [], acc => if acc.isEmpty then [] else [acc.reverse]
  | c :: rest, acc =>
    if isPyWs c then
      (if acc.isEmpty then splitWsGo rest [] else acc.reverse :: splitWsGo rest [])
    else splitWsGo rest (c :: acc)

def pySplitWs (cs : List Char) : List (List Char) := splitWsGo cs []

/-- Python `str.capitalize()` (ASCII model). -/
def pyCapitalize : List Char → List Char
  | [] => []
  | c :: rest => pyUpperChar c :: rest.map pyLowerChar

def joinSpace : List (List Char) → List Char
  | [] => []
  | [w] => w
  | w :: rest => w ++ ' ' :: joinSpace rest

/-- `Form16ToITRMapper._normalize_name` (src/itd_mapper.py lines 526-530):
falsy values (`None`, `""`) are returned as-is, otherwise each
whitespace-split word is capitalized and the words joined by blanks. -/
def normalize_name : Option String → Option String
  | none => none
  | some s =>
    if s = "" then some s
    else some (String.mk (joinSpace ((pySplitWs (pyStrip s.data)).map pyCapitalize)))

/-- `pan.strip().upper()`. -/
def stripUpper (s : String) : String := String.mk ((pyStrip s.data).map pyUpperChar)

def splitHyphen : List Char → List (List Char)
  | [] => [[]]
  | c :: rest =>
    let r := splitHyphen rest
    if c = '-' then [] :: r
    else
      match r with
      | [] => [[c]]
      | h :: t => (c :: h) :: t

/-- `Form16ToITRMapper._derive_assessment_year` (src/itd_mapper.py lines
253-272), ASCII-digit model of `str.isdigit`/`int`. -/
def derive_assessment_year : Option String → String
  | none => "2025"
  | some s =>
    if s = "" then "2025"
    else if containsC '-' s.data then
      match splitHyphen s.data with
      | p0 :: _ :: _ =>
        match digitsVal p0 with
        | some n => natToStr (n + 1)
        | none => "2025"
      | _ => "2025"
    else if s.data.all isDigit09 && decide (s.data.length = 4) then
      match digitsVal s.data with
      | some n => natToStr (n + 1)
      | none => "2025"
    else "2025"

/-- `ITRSchemaBuilder.get_creation_info` (the `JSONCreationDate` is
`date.today().isoformat()`, passed in as `today`). -/
def get_creation_info (today : String) : JObj :=
  [("SWVersionNo", JVal.str "1.0"),
   ("SWCreatedBy", JVal.str "AI_TAX_AGENT"),
   ("JSONCreatedBy", JVal.str "AI_TAX_AGENT"),
   ("JSONCreationDate", JVal.str today),
   ("IntermediaryCity", JVal.str "Mumbai"),
   ("Digest", JVal.str "-")]

def get_form_itr1_info (ay : String) : JObj :=
  [("FormName", JVal.str "ITR-1"),
   ("Description", JVal.str "For Individuals having Income from Salaries, one house property, other sources (Interest etc.) and having total income upto Rs. 50 lakh"),
   ("AssessmentYear", JVal.str ay),
   ("SchemaVer", JVal.str "Ver1.0"),
   ("FormVer", JVal.str "Ver1.0")]

/-- `get_personal_info_template` overlaid with `_map_personal_info`. -/
def personalInfoMapped (r : Form16Input) : JObj :=
  [("AssesseeName",
    if truthyS r.employee_name then jOptStr (normalize_name r.employee_name)
    else JVal.str "REPLACE_WITH_NAME"),
   ("PAN",
    if truthyS r.pan_of_employee then jOptStr (r.pan_of_employee.map stripUpper)
    else JVal.str "AAAAA0000A"),
   ("Address", JVal.obj
     [("AddrDetail", JVal.str "REPLACE_WITH_ADDRESS"),
      ("CityOrTownOrDistrict", JVal.str "REPLACE_WITH_CITY"),
      ("StateCode", JVal.str "27"),
      ("CountryCode", JVal.str "IN"),
      ("PinCode", JVal.int 400001)]),
   ("DOB", JVal.str "1990-01-01"),
   ("Status", JVal.str "I"),
   ("EmployerCategory", JVal.str "OTH"),
   ("AadhaarCardNo", JVal.str ""),
   ("AadhaarEnrolmentId", JVal.str "")]

def get_filing_status : JObj :=
  [("ReturnFileSec", JVal.int 11),
   ("OptOutNewTaxRegime", JVal.str "N"),
   ("SeventhProvisoBusiness", JVal.str "N"),
   ("ItrFilingDueDate", JVal.str "2025-07-31"),
   ("ComplianceProviso139", JVal.str "N")]

/-- The capped deduction amounts of `_map_deductions`. -/
def s80cOf (r : Form16Input) : ℤ := min r.deductions.section_80C 150000
def s80dOf (r : Form16Input) : ℤ := min r.deductions.section_80D 25000
def s80gOf (r : Form16Input) : ℤ := r.deductions.section_80G

/-- `TotalChapVIADeductions`: the source sums 16 of the computed map's
sections (it omits `80CCD2`, `80EEB`, `80GGC`), all of which are zero except
the three populated ones. -/
def total80Of (r : Form16Input) : ℤ := s80cOf r + s80dOf r + s80gOf r

/-- `income_from_salary = max(0, gross_salary - standard_deduction)`. -/
def incomeFromSalOf (r : Form16Input) : ℤ := max 0 (r.gross_salary_paid - 50000)

def chapVIAEntries (r : Form16Input) : JObj :=
  [("Section80C", JVal.int (s80cOf r)),
   ("Section80CCC", JVal.int 0),
   ("Section80CCD1", JVal.int 0),
   ("Section80CCD1B", JVal.int 0),
   ("Section80CCD2", JVal.int 0),
   ("Section80D", JVal.int (s80dOf r)),
   ("Section80DD", JVal.int 0),
   ("Section80DDB", JVal.int 0),
   ("Section80E", JVal.int 0),
   ("Section80EE", JVal.int 0),
   ("Section80EEA", JVal.int 0),
   ("Section80EEB", JVal.int 0),
   ("Section80G", JVal.int (s80gOf r)),
   ("Section80GG", JVal.int 0),
   ("Section80GGA", JVal.int 0),
   ("Section80GGC", JVal.int 0),
   ("Section80U", JVal.int 0),
   ("Section80TTA", JVal.int 0),
   ("Section80TTB", JVal.int 0)]

/-- `get_income_deductions_template` overlaid with
`_map_income_deductions`/`_map_deductions`. -/
def incomeDeductionsMapped (r : Form16Input) : JObj :=
  [("GrossSalary", JVal.int r.gross_salary_paid),
   ("AllowExemptUs10", JVal.int 0),
   ("DeductionUs16", JVal.int 50000),
   ("EntertainmentAllowanceUs16ii", JVal.int 0),
   ("ProfessionalTaxUs16iii", JVal.int 0),
   ("IncomeFromSal", JVal.int (incomeFromSalOf r)),
   ("NetSalary", JVal.int (incomeFromSalOf r)),
   ("IncomeFromHP", JVal.int 0),
   ("IncomeFromOS", JVal.int 0),
   ("UsrDeductUndChapVIA", JVal.obj (chapVIAEntries r)),
   ("DeductUndChapVIA", JVal.obj
     (chapVIAEntries r ++ [("TotalChapVIADeductions", JVal.int (total80Of r))])),
   ("GrossTotIncome", JVal.int (incomeFromSalOf r)),
   ("TotalIncome", JVal.int (max 0 (incomeFromSalOf r - total80Of r)))]

def qAmt1 (r : Form16Input) : ℤ := r.quarterly_tds.q1.getD 0
def qAmt2 (r : Form16Input) : ℤ := r.quarterly_tds.q2.getD 0
def qAmt3 (r : Form16Input) : ℤ := r.quarterly_tds.q3.getD 0
def qAmt4 (r : Form16Input) : ℤ := r.quarterly_tds.q4.getD 0

/-- The single employer entry built by `_map_tds_data` (src/itd_mapper.py
lines 382-409); quarterly sub-fields are appended only when the quarterly
dict is truthy and the quarter's amount is positive. -/
def employerEntry (r : Form16Input) : JObj :=
  [("EmployerOrDeductorOrCollectDetl", JVal.obj
     [("TAN", jOptStr r.tan),
      ("EmployerOrDeductorOrCollecterName", jOptStr (normalize_name r.company_name))]),
   ("IncChrgSal", JVal.int r.gross_salary_paid),
   ("TotalTDSSal", JVal.int r.total_tds_deducted)] ++
  (if r.quarterly_tds.isEmptyQ then []
   else
     (if 0 < qAmt1 r then [("TDSSalQ1", JVal.int (qAmt1 r))] else []) ++
     (if 0 < qAmt2 r then [("TDSSalQ2", JVal.int (qAmt2 r))] else []) ++
     (if 0 < qAmt3 r then [("TDSSalQ3", JVal.int (qAmt3 r))] else []) ++
     (if 0 < qAmt4 r then [("TDSSalQ4", JVal.int (qAmt4 r))] else []))

/-- `get_tds_template` overlaid with `_map_tds_data` (the dict update keeps
the template's insertion order). -/
def tdsSectionMapped (r : Form16Input) : JObj :=
  [("TDSonSalary", JVal.arr [JVal.obj (employerEntry r)]),
   ("TotalTDSonSalaries", JVal.int r.total_tds_deducted)]

/-- `Form16ToITRMapper._calculate_basic_tax` (src/itd_mapper.py lines
515-524), with the float products modelled exactly. -/
def calculate_basic_tax (ti : ℤ) : ℤ :=
  if ti ≤ 250000 then 0
  else if ti ≤ 500000 then Frac.trunc ((Frac.ofInt (ti - 250000)).mul ⟨5, 100⟩)
  else if ti ≤ 1000000 then
    Frac.trunc (((Frac.ofInt 250000).mul ⟨5, 100⟩).add
      ((Frac.ofInt (ti - 500000)).mul ⟨20, 100⟩))
  else
    Frac.trunc ((((Frac.ofInt 250000).mul ⟨5, 100⟩).add
      ((Frac.ofInt 500000).mul ⟨20, 100⟩)).add
      ((Frac.ofInt (ti - 1000000)).mul ⟨30, 100⟩))

/-- `TotalIncome` as computed by `_map_income_deductions`. -/
def totalIncomeOf (r : Form16Input) : ℤ := max 0 (incomeFromSalOf r - total80Of r)

/-- `_calculate_totals` intermediates (src/itd_mapper.py lines 460-506). -/
def taxLiabilityOf (r : Form16Input) : ℤ := calculate_basic_tax (totalIncomeOf r)

def rebateOf (r : Form16Input) : ℤ :=
  if totalIncomeOf r ≤ 500000 then min (taxLiabilityOf r) 12500 else 0

def taxAfterRebateOf (r : Form16Input) : ℤ := max 0 (taxLiabilityOf r - rebateOf r)

def cessOf (r : Form16Input) : ℤ :=
  Frac.trunc ((Frac.ofInt (taxAfterRebateOf r)).mul ⟨4, 100⟩)

def grossTaxLiabilityOf (r : Form16Input) : ℤ := taxAfterRebateOf r + cessOf r

def balanceOf (r : Form16Input) : ℤ := r.total_tds_deducted - grossTaxLiabilityOf r

/-- `get_tax_computation_template` overlaid with `_map_tax_computation`
and `_calculate_totals`. -/
def taxComputationMapped (r : Form16Input) : JObj :=
  [("TotalTaxPayable", JVal.int (taxLiabilityOf r)),
   ("Rebate87A", JVal.int (rebateOf r)),
   ("TaxPayableOnRebate", JVal.int (taxAfterRebateOf r)),
   ("SurchargeOnAbove", JVal.int 0),
   ("EducationCess", JVal.int (cessOf r)),
   ("GrossTaxLiability", JVal.int (grossTaxLiabilityOf r)),
   ("Section89", JVal.int 0),
   ("NetTaxLiability", JVal.int (grossTaxLiabilityOf r)),
   ("TotalIntrstPay", JVal.int 0),
   ("IntrstPay", JVal.obj
     [("IntrstPayUs234A", JVal.int 0),
      ("IntrstPayUs234B", JVal.int 0),
      ("IntrstPayUs234C", JVal.int 0),
      ("IntrstPayUs234F", JVal.int 0),
      ("LateFilingFee", JVal.int 0)]),
   ("TotTaxPlusIntrstPay", JVal.int (grossTaxLiabilityOf r))]

/-- `get_taxes_paid_template` overlaid with `_map_taxes_paid` and
`_calculate_totals`. -/
def taxPaidMapped (r : Form16Input) : JObj :=
  [("TaxesPaid", JVal.obj
     [("AdvanceTax", JVal.int 0),
      ("TDS", JVal.int r.total_tds_deducted),
      ("TCS", JVal.int 0),
      ("SelfAssessmentTax", JVal.int 0),
      ("TotalTaxesPaid", JVal.int r.total_tds_deducted)]),
   ("BalTaxPayable", JVal.int (if 0 ≤ balanceOf r then 0 else |balanceOf r|))]

/-- `get_refund_template` overlaid with `_map_refund_details` and
`_calculate_totals`. -/
def refundMapped (r : Form16Input) : JObj :=
  [("RefundDue", JVal.int (if 0 ≤ balanceOf r then balanceOf r else 0)),
   ("BankAccountDtls", JVal.obj
     [("BankName", JVal.str "REPLACE_BANK_NAME"),
      ("BankAccountNo", JVal.str "REPLACE_ACCOUNT_NUMBER"),
      ("IFSCCode", JVal.str "REPLACE_IFSC"),
      ("BankAddress", JVal.str "REPLACE_BANK_ADDRESS"),
      ("AccountType", JVal.str "S"),
      ("UseForRefund", JVal.str "Y")])]

/-- `get_verification_template` overlaid with `_map_verification`. -/
def verificationMapped (r : Form16Input) (today : String) : JObj :=
  [("Declaration", JVal.obj
     [("AssesseeVerName",
       if truthyS r.employee_name then jOptStr (normalize_name r.employee_name)
       else JVal.str "REPLACE_VERIFIER_NAME"),
      ("FatherName", JVal.str "REPLACE_FATHER_NAME"),
      ("AssesseeVerPAN",
       if truthyS r.pan_of_employee then jOptStr (r.pan_of_employee.map stripUpper)
       else JVal.str "AAAAA0000A")]),
   ("Capacity", JVal.str "S"),
   ("Place", JVal.str "REPLACE_WITH_PLACE"),
   ("Date", JVal.str today)]

/-- `Form16ToITRMapper.map_to_itr` (src/itd_mapper.py lines 221-251):
build the base structure, overlay every section, compute derived totals. -/
def map_to_itr (r : Form16Input) (today : String) : JObj :=
  [("ITR", JVal.obj [("ITR1", JVal.obj
    [("CreationInfo", JVal.obj (get_creation_info today)),
     ("Form_ITR1", JVal.obj (get_form_itr1_info (derive_assessment_year r.assessment_year))),
     ("PersonalInfo", JVal.obj (personalInfoMapped r)),
     ("FilingStatus", JVal.obj get_filing_status),
     ("ITR1_IncomeDeductions", JVal.obj (incomeDeductionsMapped r)),
     ("TDSonSalaries", JVal.obj (tdsSectionMapped r)),
     ("ITR1_TaxComputation", JVal.obj (taxComputationMapped r)),
     ("TaxPaid", JVal.obj (taxPaidMapped r)),
     ("Refund", JVal.obj (refundMapped r)),
     ("Verification", JVal.obj (verificationMapped r today))])])]

/-- `asdict` of a freshly-constructed `ExtractionResult` with no fields
populated. -/
def emptyF16 : Form16Input :=
  ⟨none, none, none, none, none, 0, 0, ⟨none, none, none, none⟩, ⟨0, 0, 0⟩⟩

/-- C8: in every mapped document, with `balance = TotalTaxesPaid −
GrossTaxLiability`: a nonnegative balance becomes `Refund.RefundDue` with
`TaxPaid.BalTaxPayable = 0`, a negative one becomes `BalTaxPayable =
−balance` with `RefundDue = 0`; both fields are nonnegative and never both
positive. -/
theorem c8_refund_payable_split (r : Form16Input) (today : String) :
    ∃ paid gross refund bal : ℤ,
      get_nested (itr1Of (map_to_itr r today))
        "TaxPaid.TaxesPaid.TotalTaxesPaid" = some (JVal.int paid) ∧
      get_nested (itr1Of (map_to_itr r today))
        "ITR1_TaxComputation.GrossTaxLiability" = some (JVal.int gross) ∧
      get_nested (itr1Of (map_to_itr r today))
        "Refund.RefundDue" = some (JVal.int refund) ∧
      get_nested (itr1Of (map_to_itr r today))
        "TaxPaid.BalTaxPayable" = some (JVal.int bal) ∧
      (0 ≤ paid - gross → refund = paid - gross ∧ bal = 0) ∧
      (paid - gross < 0 → refund = 0 ∧ bal = -(paid - gross)) ∧
      0 ≤ refund ∧ 0 ≤ bal ∧ ¬(0 < refund ∧ 0 < bal) := by
  refine ⟨r.total_tds_deducted, grossTaxLiabilityOf r,
    (if 0 ≤ balanceOf r then balanceOf r else 0),
    (if 0 ≤ balanceOf r then 0 else |balanceOf r|),
    rfl, rfl, rfl, rfl, ?_⟩
  simp only [balanceOf]
  rcases le_or_lt 0 (r.total_tds_deducted - grossTaxLiabilityOf r) with hb | hb
  · rw [if_pos hb, if_pos hb]
    exact ⟨fun _ => ⟨rfl, rfl⟩, fun h => absurd hb (by omega), hb, le_refl 0, by omega⟩
  · rw [if_neg (by omega), if_neg (by omega), abs_of_neg hb]
    exact ⟨fun h => absurd h (by omega), fun _ => ⟨rfl, rfl⟩, le_refl 0, by omega, by omega⟩

/-- Witness for C8: the empty record maps to a document with zero taxes
paid, zero gross liability, and hence zero refund and zero balance. -/
theorem c8_refund_payable_split_witness :
    get_nested (itr1Of (map_to_itr emptyF16 "2025-01-01"))
      "Refund.RefundDue" = some (JVal.int 0) ∧
    get_nested (itr1Of (map_to_itr emptyF16 "2025-01-01"))
      "TaxPaid.BalTaxPayable" = some (JVal.int 0) := by
  obtain ⟨paid, gross, refund, bal, h1, h2, h3, h4, h5, -, -, -, -⟩ :=
    c8_refund_payable_split emptyF16 "2025-01-01"
  have h1' : get_nested (itr1Of (map_to_itr emptyF16 "2025-01-01"))
      "TaxPaid.TaxesPaid.TotalTaxesPaid" = some (JVal.int 0) := rfl
  have h2' : get_nested (itr1Of (map_to_itr emptyF16 "2025-01-01"))
      "ITR1_TaxComputation.GrossTaxLiability" = some (JVal.int 0) := rfl
  rw [h1] at h1'
  rw [h2] at h2'
  have hpaid : paid = 0 := by simpa using h1'
  have hgross : gross = 0 := by simpa using h2'
  obtain ⟨hr, hb0⟩ := h5 (by omega)
  rw [hr, hpaid, hgross] at h3
  rw [hb0] at h4
  exact ⟨by simpa using h3, h4⟩

theorem alookup_q1 (r : Form16Input) :
    alookup (employerEntry r) "TDSSalQ1" =
      (if 0 < qAmt1 r then some (JVal.int (qAmt1 r)) else none) := by
  unfold employerEntry
  by_cases hemp : r.quarterly_tds.isEmptyQ = true
  · rw [if_pos hemp]
    have h1 : r.quarterly_tds.q1 = none := by
      unfold Quarterly.isEmptyQ at hemp
      cases hq : r.quarterly_tds.q1 with
      | none => rfl
      | some x => rw [hq] at hemp; simp at hemp
    have hz : qAmt1 r = 0 := by unfold qAmt1; rw [h1]; rfl
    rw [hz, if_neg (by omega)]
    rfl
  · rw [if_neg hemp]
    by_cases h1 : 0 < qAmt1 r
    · rw [if_pos h1, if_pos h1]
      rfl
    · rw [if_neg h1, if_neg h1]
      by_cases h2 : 0 < qAmt2 r <;> by_cases h3 : 0 < qAmt3 r <;>
        by_cases h4 : 0 < qAmt4 r <;> simp [h2, h3, h4, alookup]

theorem alookup_q2 (r : Form16Input) :
    alookup (employerEntry r) "TDSSalQ2" =
      (if 0 < qAmt2 r then some (JVal.int (qAmt2 r)) else none) := by
  unfold employerEntry
  by_cases hemp : r.quarterly_tds.isEmptyQ = true
  · rw [if_pos hemp]
    have h2 : r.quarterly_tds.q2 = none := by
      unfold Quarterly.isEmptyQ at hemp
      cases hq : r.quarterly_tds.q2 with
      | none => rfl
      | some x => rw [hq] at hemp; simp at hemp
    have hz : qAmt2 r = 0 := by unfold qAmt2; rw [h2]; rfl
    rw [hz, if_neg (by omega)]
    rfl
  · rw [if_neg hemp]
    by_cases h2 : 0 < qAmt2 r
    · rw [if_pos h2, if_pos h2]
      by_cases h1 : 0 < qAmt1 r <;> simp [h1, alookup]
    · rw [if_neg h2, if_neg h2]
      by_cases h1 : 0 < qAmt1 r <;> by_cases h3 : 0 < qAmt3 r <;>
        by_cases h4 : 0 < qAmt4 r <;> simp [h1, h3, h4, alookup]

theorem alookup_q3 (r : Form16Input) :
    alookup (employerEntry r) "TDSSalQ3" =
      (if 0 < qAmt3 r then some (JVal.int (qAmt3 r)) else none) := by
  unfold employerEntry
  by_cases hemp : r.quarterly_tds.isEmptyQ = true
  · rw [if_pos hemp]
    have h3 : r.quarterly_tds.q3 = none := by
      unfold Quarterly.isEmptyQ at hemp
      cases hq : r.quarterly_tds.q3 with
      | none => rfl
      | some x => rw [hq] at hemp; simp at hemp
    have hz : qAmt3 r = 0 := by unfold qAmt3; rw [h3]; rfl
    rw [hz, if_neg (by omega)]
    rfl
  · rw [if_neg hemp]
    by_cases h3 : 0 < qAmt3 r
    · rw [if_pos h3, if_pos h3]
      by_cases h1 : 0 < qAmt1 r <;> by_cases h2 : 0 < qAmt2 r <;>
        simp [h1, h2, alookup]
    · rw [if_neg h3, if_neg h3]
      by_cases h1 : 0 < qAmt1 r <;> by_cases h2 : 0 < qAmt2 r <;>
        by_cases h4 : 0 < qAmt4 r <;> simp [h1, h2, h4, alookup]

theorem alookup_q4 (r : Form16Input) :
    alookup (employerEntry r) "TDSSalQ4" =
      (if 0 < qAmt4 r then some (JVal.int (qAmt4 r)) else none) := by
  unfold employerEntry
  by_cases hemp : r.quarterly_tds.isEmptyQ = true
  · rw [if_pos hemp]
    have h4 : r.quarterly_tds.q4 = none := by
      unfold Quarterly.isEmptyQ at hemp
      cases hq : r.quarterly_tds.q4 with
      | none => rfl
      | some x => rw [hq] at hemp; simp at hemp
    have hz : qAmt4 r = 0 := by unfold qAmt4; rw [h4]; rfl
    rw [hz, if_neg (by omega)]
    rfl
  · rw [if_neg hemp]
    by_cases h4 : 0 < qAmt4 r
    · rw [if_pos h4, if_pos h4]
      by_cases h1 : 0 < qAmt1 r <;> by_cases h2 : 0 < qAmt2 r <;>
        by_cases h3 : 0 < qAmt3 r <;> simp [h1, h2, h3, alookup]
    · rw [if_neg h4, if_neg h4]
      by_cases h1 : 0 < qAmt1 r <;> by_cases h2 : 0 < qAmt2 r <;>
        by_cases h3 : 0 < qAmt3 r <;> simp [h1, h2, h3, alookup]

/-- C9: for every record, the Schema Mapper sets `TDSonSalaries.TDSonSalary`
to a list of exactly one employer entry (the template's empty list is
replaced), and the quarterly sub-fields `TDSSalQ1..Q4` are present in that
entry exactly for the quarters whose amount is strictly positive (carrying
that amount), alongside the income and total-TDS fields. -/
theorem c9_tds_single_entry (r : Form16Input) (today : String) :
    ∃ e : JObj,
      get_nested (itr1Of (map_to_itr r today)) "TDSonSalaries.TDSonSalary" =
        some (JVal.arr [JVal.obj e]) ∧
      alookup e "TDSSalQ1" = (if 0 < qAmt1 r then some (JVal.int (qAmt1 r)) else none) ∧
      alookup e "TDSSalQ2" = (if 0 < qAmt2 r then some (JVal.int (qAmt2 r)) else none) ∧
      alookup e "TDSSalQ3" = (if 0 < qAmt3 r then some (JVal.int (qAmt3 r)) else none) ∧
      alookup e "TDSSalQ4" = (if 0 < qAmt4 r then some (JVal.int (qAmt4 r)) else none) ∧
      alookup e "IncChrgSal" = some (JVal.int r.gross_salary_paid) ∧
      alookup e "TotalTDSSal" = some (JVal.int r.total_tds_deducted) := by
  exact ⟨employerEntry r, rfl, alookup_q1 r, alookup_q2 r, alookup_q3 r,
    alookup_q4 r, rfl, rfl⟩

/-! ## Placeholder detection and completeness scoring -/

/-- The module-level `PLACEHOLDERS` set of src/ai_agent.py lines 11-16. -/
def PLACEHOLDERS : List String :=
  ["", " ", "-", "NA", "N/A", "NONE", "NULL", "0", "0.0",
   "REPLACE", "REPLACE_ADDRESS", "REPLACE_BANK", "REPLACE_ACCOUNT",
   "REPLACE_VERIFIER_NAME", "REPLACE_FATHER_NAME", "REPLACE_WITH_NAME",
   "REPLACE_WITH_EMPLOYER", "REPLACE_WITH_TAN", "SW00000001", "AAAAA0000A"]

/-- `DataValidator.is_placeholder` (src/ai_agent.py lines 150-167): `None`,
a string whose stripped uppercase form is in `PLACEHOLDERS` or starts with
`REPLACE`, or a zero number. -/
def is_placeholder : JVal → Bool
  | JVal.null => true
  | JVal.str s =>
    let t := stripUpper s
    PLACEHOLDERS.contains t || ("REPLACE".data).isPrefixOf t.data
  | JVal.int n => n == 0
  | _ => false

/-- The sentinel set of `_is_placeholder_value` (src/itd_mapper.py lines
671-687). -/
def placeholder_values : List String :=
  ["", "REPLACE_WITH_NAME", "REPLACE_WITH_ADDRESS", "REPLACE_BANK_NAME",
   "REPLACE_ACCOUNT_NUMBER", "REPLACE_IFSC", "REPLACE_BANK_ADDRESS",
   "REPLACE_VERIFIER_NAME", "REPLACE_FATHER_NAME", "REPLACE_WITH_PLACE",
   "REPLACE_WITH_TAN", "REPLACE_WITH_EMPLOYER_NAME", "AAAAA0000A",
   "REPLACE_WITH_CITY", "-"]

/-- `_is_placeholder_value` (src/itd_mapper.py lines 671-687): `None`, or a
string whose stripped uppercase form is a sentinel or starts with `REPLACE`;
numbers are never placeholders here. -/
def is_placeholder_value : JVal → Bool
  | JVal.null => true
  | JVal.str s =>
    let t := stripUpper s
    placeholder_values.contains t || ("REPLACE".data).isPrefixOf t.data
  | _ => false

def pathJoin (path key : String) : String :=
  if path = "" then key else path ++ "." ++ key

/-- The leaf traversal of `get_placeholders._find_placeholders`
(src/itd_mapper.py lines 652-667), collecting every non-dict non-list value
with its dotted/bracketed path.  The recursion is bounded by an explicit
fuel (ample for the fixed ITR-1 schema depth) so that it stays structural;
the Python recursion is unbounded. -/
def leavesFuel : Nat → JVal → String → List (String × JVal)
  | 0, v, path => [(path, v)]
  | fuel + 1, v, path =>
    match v with
    | JVal.obj m =>
      m.foldr (fun kv acc => leavesFuel fuel kv.2 (pathJoin path kv.1) ++ acc) []
    | JVal.arr l =>
      (l.foldl (fun st x =>
        (st.1 + 1, st.2 ++ leavesFuel fuel x (path ++ "[" ++ natToStr st.1 ++ "]")))
        ((0 : Nat), ([] : List (String × JVal)))).2
    | x => [(path, x)]

def docLeaves (v : JVal) : List (String × JVal) := leavesFuel 8 v ""

/-- Python truthiness of a JSON value. -/
def truthyJ : JVal → Bool
  | JVal.null => false
  | JVal.str s => !(s == "")
  | JVal.int n => !(n == 0)
  | JVal.arr l => !l.isEmpty
  | JVal.obj m => !m.isEmpty

/-- The per-field filled test of `ITRAnalyzer.analyze_completeness`
(src/ai_agent.py lines 222-235): a field counts as filled when its value is
truthy and not a placeholder. -/
def fieldFilled (itr1 : JVal) (sectionName fieldName : String) : Bool :=
  match itr1 with
  | JVal.obj m =>
    match alookup m sectionName with
    | some (JVal.obj sec) =>
      match alookup sec fieldName with
      | some v => truthyJ v && !(is_placeholder v)
      | none => false
    | _ => false
  | _ => false

/-- C3 counterexample: in the document mapped from an empty
`ExtractionRecord`, the numeric leaf `ITR1_IncomeDeductions.DeductionUs16`
is 50000 (not 0), `PersonalInfo.Address.PinCode` is 400001,
`FilingStatus.ReturnFileSec` is 11, and the textual leaf
`CreationInfo.IntermediaryCity` is `"Mumbai"`, which neither placeholder
check recognizes as a sentinel. -/
theorem c3_counterexample :
    get_nested (itr1Of (map_to_itr emptyF16 "2025-01-01"))
      "ITR1_IncomeDeductions.DeductionUs16" = some (JVal.int 50000) ∧
    JVal.int 50000 ≠ JVal.int 0 ∧
    get_nested (itr1Of (map_to_itr emptyF16 "2025-01-01"))
      "PersonalInfo.Address.PinCode" = some (JVal.int 400001) ∧
    get_nested (itr1Of (map_to_itr emptyF16 "2025-01-01"))
      "FilingStatus.ReturnFileSec" = some (JVal.int 11) ∧
    get_nested (itr1Of (map_to_itr emptyF16 "2025-01-01"))
      "CreationInfo.IntermediaryCity" = some (JVal.str "Mumbai") ∧
    is_placeholder_value (JVal.str "Mumbai") = false ∧
    is_placeholder (JVal.str "Mumbai") = false := by
  refine ⟨rfl, ?_, rfl, rfl, rfl, rfl, rfl⟩
  intro h
  simp at h

/-- The fixed numeric domain defaults of the freshly-mapped document. -/
def c3NumericDefaults : List (String × ℤ) :=
  [("FilingStatus.ReturnFileSec", 11),
   ("PersonalInfo.Address.PinCode", 400001),
   ("ITR1_IncomeDeductions.DeductionUs16", 50000)]

/-- The fixed textual domain defaults of the freshly-mapped document. -/
def c3TextDefaults : List String :=
  ["1.0", "AI_TAX_AGENT", "Mumbai", "ITR-1",
   "For Individuals having Income from Salaries, one house property, other sources (Interest etc.) and having total income upto Rs. 50 lakh",
   "2025", "Ver1.0", "27", "IN", "1990-01-01", "I", "OTH", "N",
   "2025-07-31", "S", "Y"]

/-- The two leaves carrying the creation-date stamp. -/
def c3DatePaths : List String :=
  ["CreationInfo.JSONCreationDate", "Verification.Date"]

/-- C3 amended leaf predicate: a leaf of the freshly-mapped empty document
is a date-stamp leaf, a zero or fixed-default number, a placeholder sentinel
or fixed-default string, or the `None` fed from an absent identity field. -/
def c3LeafOKb (p : String) (v : JVal) : Bool :=
  c3DatePaths.contains p ||
  (match v with
   | JVal.int n => (n == 0) || c3NumericDefaults.contains (p, n)
   | JVal.str s => is_placeholder_value (JVal.str s) || c3TextDefaults.contains s
   | JVal.null => true
   | _ => false)

/-- C3 amended: in the ITRDocument mapped from an empty ExtractionRecord,
every numeric leaf is 0 except the three fixed domain defaults
(`ReturnFileSec = 11`, `PinCode = 400001`, `DeductionUs16 = 50000`); every
textual leaf is a recognized placeholder sentinel, one of the fixed
domain-default strings, or the creation-date stamp (and the employer
TAN/name leaves are `None`, coming from the empty record); and none of the
five leaf-valued critical fields of completeness scoring counts as filled. -/
theorem c3_amended (today : String) :
    ((docLeaves (itr1Of (map_to_itr emptyF16 today))).all
      (fun pv => c3LeafOKb pv.1 pv.2)) = true ∧
    get_nested (itr1Of (map_to_itr emptyF16 today))
      "CreationInfo.JSONCreationDate" = some (JVal.str today) ∧
    get_nested (itr1Of (map_to_itr emptyF16 today))
      "Verification.Date" = some (JVal.str today) ∧
    fieldFilled (itr1Of (map_to_itr emptyF16 today)) "PersonalInfo" "AssesseeName" = false ∧
    fieldFilled (itr1Of (map_to_itr emptyF16 today)) "PersonalInfo" "PAN" = false ∧
    fieldFilled (itr1Of (map_to_itr emptyF16 today)) "ITR1_IncomeDeductions" "GrossSalary" = false ∧
    fieldFilled (itr1Of (map_to_itr emptyF16 today)) "ITR1_IncomeDeductions" "TotalIncome" = false ∧
    fieldFilled (itr1Of (map_to_itr emptyF16 today)) "TDSonSalaries" "TotalTDSonSalaries" = false := by
  exact ⟨rfl, rfl, rfl, rfl, rfl, rfl, rfl, rfl⟩

/-! ## Fallback Extractor (`src/extractor.py`, `Form16Extractor._llm_fallback`)

The external generative service's parsed response is an arbitrary mapping of
field names to JSON values, modelled by `LVal` (strings, numbers and nested
dicts — the shapes the merge code distinguishes; other JSON shapes interact
with the merge only through Python truthiness, like these).  The record's
four identity fields hold `None` or a merged value (`Option LVal`); amount
fields are ints, always renormalized before assignment. -/

inductive LVal where
  | s : String → LVal
  | i : ℤ → LVal
  | d : List (String × LVal) → LVal

def lookupA {α : Type} : List (String × α) → String → Option α
  | [], _ => none
  | (k, v) :: rest, key => if k = key then some v else lookupA rest key

def asetA {α : Type} : List (String × α) → String → α → List (String × α)
  | [], key, v => [(key, v)]
  | (k, w) :: rest, key, v =>
    if k = key then (k, v) :: rest else (k, w) :: asetA rest key v

theorem lookupA_asetA_ne {α : Type} (m : List (String × α)) (k q : String) (v : α)
    (h : k ≠ q) : lookupA (asetA m k v) q = lookupA m q := by
  induction m with
  | nil => simp [asetA, lookupA, h]
  | cons kv rest ih =>
    obtain ⟨k0, v0⟩ := kv
    by_cases h0 : k0 = k
    · subst h0
      simp [asetA, lookupA, h]
    · simp [asetA, lookupA, h0, ih]

/-- Python truthiness of a service value. -/
def lTruthy : LVal → Bool
  | LVal.s s => !(s == "")
  | LVal.i n => !(n == 0)
  | LVal.d m => !m.isEmpty

def oTruthy : Option LVal → Bool
  | none => false
  | some v => lTruthy v

/-- Python `x in list` on a list of field names. -/
def containsS : List String → String → Bool
  | [], _ => false
  | a :: rest, f => (a = f) || containsS rest f

/-- `ExtractionResult`, restricted to the fields `_llm_fallback` touches. -/
structure ExtractionResult where
  company_name : Option LVal
  employee_name : Option LVal
  pan_of_employee : Option LVal
  tan : Option LVal
  gross_salary_paid : ℤ
  total_tds_deducted : ℤ
  quarterly_tds : List (String × ℤ)
  deductions : List (String × ℤ)
  source_map : List (String × String)

def CRITICAL_FIELDS : List String :=
  ["company_name", "employee_name", "pan_of_employee", "tan",
   "gross_salary_paid", "total_tds_deducted"]

/-- The `not value or (isinstance(value, (int, float)) and value == 0)`
missing test, per critical field. -/
def fieldMissing (r : ExtractionResult) (f : String) : Bool :=
  if f = "company_name" then !(oTruthy r.company_name)
  else if f = "employee_name" then !(oTruthy r.employee_name)
  else if f = "pan_of_employee" then !(oTruthy r.pan_of_employee)
  else if f = "tan" then !(oTruthy r.tan)
  else if f = "gross_salary_paid" then r.gross_salary_paid == 0
  else if f = "total_tds_deducted" then r.total_tds_deducted == 0
  else false

def missing_fields (r : ExtractionResult) : List String :=
  CRITICAL_FIELDS.filter (fieldMissing r)

/-- `float(clean)` then `int(...)`: optional sign, digits with at most one
dot (exponents and the non-finite spellings are corners unexercised by the
repository's data and omitted); truncation toward zero. -/
def parseFloatTruncNonneg (cs : List Char) : Option ℤ :=
  let dots := (cs.filter (fun c => c = '.')).length
  if cs.isEmpty then none
  else if dots = 0 then (digitsVal cs).map (fun n => (n : ℤ))
  else if dots = 1 then
    let before := cs.takeWhile (fun c => !(c = '.'))
    let after := (cs.dropWhile (fun c => !(c = '.'))).drop 1
    if before.all isDigit09 && after.all isDigit09 && !(before.isEmpty && after.isEmpty) then
      some (before.foldl (fun a c => a * 10 + ((c.toNat : ℤ) - 48)) 0)
    else none
  else none

def parseFloatTrunc (cs : List Char) : Option ℤ :=
  match cs with
  | '-' :: rest => (parseFloatTruncNonneg rest).map (fun n => -n)
  | '+' :: rest => parseFloatTruncNonneg rest
  | _ => parseFloatTruncNonneg cs

/-- `ValidationEngine.normalize_amount` (src/extractor.py lines 130-140)
applied to `str(value)`: strip `₹`, commas and whitespace, parse as a float,
truncate; any failure yields 0.  `str` of an int reparses to the same int;
`str` of a dict never parses as a number. -/
def normalize_amount : LVal → ℤ
  | LVal.s s =>
    if s = "" then 0
    else
      match parseFloatTrunc (s.data.filter (fun c => !(isPyWs c || c = ',' || c = '₹'))) with
      | some n => n
      | none => 0
  | LVal.i n => n
  | LVal.d _ => 0

/-- `setattr(result, field, value)` for the six critical fields, with the
amount fields renormalized first (src/extractor.py lines 563-569). -/
def setField (r : ExtractionResult) (f : String) (v : LVal) : ExtractionResult :=
  if f = "company_name" then { r with company_name := some v }
  else if f = "employee_name" then { r with employee_name := some v }
  else if f = "pan_of_employee" then { r with pan_of_employee := some v }
  else if f = "tan" then { r with tan := some v }
  else if f = "gross_salary_paid" then { r with gross_salary_paid := normalize_amount v }
  else if f = "total_tds_deducted" then { r with total_tds_deducted := normalize_amount v }
  else r

/-- The `for field, value in llm_data.items()` merge loop: a field is merged
only when it was requested as missing and the returned value is truthy. -/
def mergeFields (miss : List String) : ExtractionResult → List (String × LVal) → ExtractionResult
  | r, [] => r
  | r, (f, v) :: rest =>
    let r' :=
      if containsS miss f && lTruthy v then
        let r1 := setField r f v
        { r1 with source_map := asetA r1.source_map f "llm" }
      else r
    mergeFields miss r' rest

/-- The nested `quarterly_tds`/`deductions` key-by-key merge: an entry is
written only when the key is absent or its current value is falsy. -/
def mergeNested (cur : List (String × ℤ)) : List (String × LVal) → List (String × ℤ)
  | [] => cur
  | (k, a) :: rest =>
    let cur' :=
      match lookupA cur k with
      | some x => if x == 0 then asetA cur k (normalize_amount a) else cur
      | none => asetA cur k (normalize_amount a)
    mergeNested cur' rest

def applyQuarterly (r : ExtractionResult) (llm : List (String × LVal)) : ExtractionResult :=
  match lookupA llm "quarterly_tds" with
  | some (LVal.d qd) =>
    { r with quarterly_tds := mergeNested r.quarterly_tds qd,
             source_map := asetA r.source_map "quarterly_tds" "llm" }
  | _ => r

def applyDeductions (r : ExtractionResult) (llm : List (String × LVal)) : ExtractionResult :=
  match lookupA llm "deductions" with
  | some (LVal.d dd) =>
    { r with deductions := mergeNested r.deductions dd,
             source_map := asetA r.source_map "deductions" "llm" }
  | _ => r

/-- `Form16Extractor._llm_fallback` (src/extractor.py lines 536-586), with
the external service's parsed response passed in as `llm_data`: no missing
fields → no call at all; falsy response → nothing merged; otherwise merge
the requested flat fields, then the nested quarterly/deduction maps. -/
def llm_fallback (r : ExtractionResult) (llm_data : List (String × LVal)) :
    ExtractionResult :=
  if (missing_fields r).isEmpty then r
  else if llm_data.isEmpty then r
  else applyDeductions (applyQuarterly (mergeFields (missing_fields r) r llm_data) llm_data) llm_data

theorem setField_preserves (r : ExtractionResult) (f : String) (v : LVal) :
    (¬ f = "company_name" → (setField r f v).company_name = r.company_name) ∧
    (¬ f = "employee_name" → (setField r f v).employee_name = r.employee_name) ∧
    (¬ f = "pan_of_employee" → (setField r f v).pan_of_employee = r.pan_of_employee) ∧
    (¬ f = "tan" → (setField r f v).tan = r.tan) ∧
    (¬ f = "gross_salary_paid" → (setField r f v).gross_salary_paid = r.gross_salary_paid) ∧
    (¬ f = "total_tds_deducted" → (setField r f v).total_tds_deducted = r.total_tds_deducted) ∧
    (setField r f v).quarterly_tds = r.quarterly_tds ∧
    (setField r f v).deductions = r.deductions := by
  unfold setField
  split_ifs <;>
    refine ⟨?_, ?_, ?_, ?_, ?_, ?_, rfl, rfl⟩ <;>
    intro h <;>
    first
      | rfl
      | exact absurd (by assumption) h

theorem mergeFields_preserves (miss : List String) :
    ∀ (llm : List (String × LVal)) (r : ExtractionResult),
      (containsS miss "company_name" = false →
        (mergeFields miss r llm).company_name = r.company_name) ∧
      (containsS miss "employee_name" = false →
        (mergeFields miss r llm).employee_name = r.employee_name) ∧
      (containsS miss "pan_of_employee" = false →
        (mergeFields miss r llm).pan_of_employee = r.pan_of_employee) ∧
      (containsS miss "tan" = false →
        (mergeFields miss r llm).tan = r.tan) ∧
      (containsS miss "gross_salary_paid" = false →
        (mergeFields miss r llm).gross_salary_paid = r.gross_salary_paid) ∧
      (containsS miss "total_tds_deducted" = false →
        (mergeFields miss r llm).total_tds_deducted = r.total_tds_deducted) ∧
      (mergeFields miss r llm).quarterly_tds = r.quarterly_tds ∧
      (mergeFields miss r llm).deductions = r.deductions := by
  intro llm
  induction llm with
  | nil =>
    intro r
    exact ⟨fun _ => rfl, fun _ => rfl, fun _ => rfl, fun _ => rfl, fun _ => rfl,
      fun _ => rfl, rfl, rfl⟩
  | cons fv rest ih =>
    intro r
    obtain ⟨f, v⟩ := fv
    by_cases hc : (containsS miss f && lTruthy v) = true
    · have hstep : mergeFields miss r ((f, v) :: rest) =
          mergeFields miss
            { setField r f v with
              source_map := asetA (setField r f v).source_map f "llm" } rest := by
        simp [mergeFields, hc]
      rw [hstep]
      obtain ⟨i1, i2, i3, i4, i5, i6, i7, i8⟩ :=
        ih { setField r f v with
             source_map := asetA (setField r f v).source_map f "llm" }
      obtain ⟨s1, s2, s3, s4, s5, s6, s7, s8⟩ := setField_preserves r f v
      have hcf : containsS miss f = true := (Bool.and_eq_true_iff.mp hc).1
      refine ⟨?_, ?_, ?_, ?_, ?_, ?_, ?_, ?_⟩
      · intro hm
        rw [i1 hm]
        exact s1 (by intro he; subst he; rw [hm] at hcf; cases hcf)
      · intro hm
        rw [i2 hm]
        exact s2 (by intro he; subst he; rw [hm] at hcf; cases hcf)
      · intro hm
        rw [i3 hm]
        exact s3 (by intro he; subst he; rw [hm] at hcf; cases hcf)
      · intro hm
        rw [i4 hm]
        exact s4 (by intro he; subst he; rw [hm] at hcf; cases hcf)
      · intro hm
        rw [i5 hm]
        exact s5 (by intro he; subst he; rw [hm] at hcf; cases hcf)
      · intro hm
        rw [i6 hm]
        exact s6 (by intro he; subst he; rw [hm] at hcf; cases hcf)
      · rw [i7]; exact s7
      · rw [i8]; exact s8
    · have hcF : (containsS miss f && lTruthy v) = false := by
        cases hx : (containsS miss f && lTruthy v) with
        | false => rfl
        | true => exact absurd hx hc
      have hstep : mergeFields miss r ((f, v) :: rest) = mergeFields miss r rest := by
        simp [mergeFields, hcF]
      rw [hstep]
      exact ih r

theorem mergeNested_preserves :
    ∀ (qd : List (String × LVal)) (cur : List (String × ℤ)) (q : String) (a : ℤ),
      lookupA cur q = some a → ¬ a = 0 →
      lookupA (mergeNested cur qd) q = some a := by
  intro qd
  induction qd with
  | nil => intro cur q a h _; exact h
  | cons ka rest ih =>
    intro cur q a h ha
    obtain ⟨k, av⟩ := ka
    by_cases hk : k = q
    · subst hk
      have hbeq : (a == (0 : ℤ)) = false := by
        rw [beq_eq_false_iff_ne]
        exact ha
      have hstep : mergeNested cur ((k, av) :: rest) = mergeNested cur rest := by
        simp [mergeNested, h, hbeq]
      rw [hstep]
      exact ih cur k a h ha
    · have hl : lookupA (match lookupA cur k with
          | some x => if x == 0 then asetA cur k (normalize_amount av) else cur
          | none => asetA cur k (normalize_amount av)) q = some a := by
        cases hx : lookupA cur k with
        | none =>
          rw [lookupA_asetA_ne cur k q _ hk]
          exact h
        | some x =>
          show lookupA
            (if (x == (0 : ℤ)) = true then asetA cur k (normalize_amount av) else cur)
            q = some a
          by_cases hx0 : (x == (0 : ℤ)) = true
          · rw [if_pos hx0, lookupA_asetA_ne cur k q _ hk]
            exact h
          · rw [if_neg hx0]
            exact h
      have hstep : mergeNested cur ((k, av) :: rest) =
          mergeNested (match lookupA cur k with
            | some x => if x == 0 then asetA cur k (normalize_amount av) else cur
            | none => asetA cur k (normalize_amount av)) rest := rfl
      rw [hstep]
      exact ih _ q a hl ha

theorem applyQuarterly_flat (r : ExtractionResult) (llm : List (String × LVal)) :
    (applyQuarterly r llm).company_name = r.company_name ∧
    (applyQuarterly r llm).employee_name = r.employee_name ∧
    (applyQuarterly r llm).pan_of_employee = r.pan_of_employee ∧
    (applyQuarterly r llm).tan = r.tan ∧
    (applyQuarterly r llm).gross_salary_paid = r.gross_salary_paid ∧
    (applyQuarterly r llm).total_tds_deducted = r.total_tds_deducted ∧
    (applyQuarterly r llm).deductions = r.deductions := by
  unfold applyQuarterly
  split <;> exact ⟨rfl, rfl, rfl, rfl, rfl, rfl, rfl⟩

theorem applyQuarterly_keeps (r : ExtractionResult) (llm : List (String × LVal))
    (q : String) (a : ℤ) (h : lookupA r.quarterly_tds q = some a) (ha : ¬ a = 0) :
    lookupA (applyQuarterly r llm).quarterly_tds q = some a := by
  unfold applyQuarterly
  split
  · exact mergeNested_preserves _ _ _ _ h ha
  · exact h

theorem applyDeductions_flat (r : ExtractionResult) (llm : List (String × LVal)) :
    (applyDeductions r llm).company_name = r.company_name ∧
    (applyDeductions r llm).employee_name = r.employee_name ∧
    (applyDeductions r llm).pan_of_employee = r.pan_of_employee ∧
    (applyDeductions r llm).tan = r.tan ∧
    (applyDeductions r llm).gross_salary_paid = r.gross_salary_paid ∧
    (applyDeductions r llm).total_tds_deducted = r.total_tds_deducted ∧
    (applyDeductions r llm).quarterly_tds = r.quarterly_tds := by
  unfold applyDeductions
  split <;> exact ⟨rfl, rfl, rfl, rfl, rfl, rfl, rfl⟩

theorem applyDeductions_keeps (r : ExtractionResult) (llm : List (String × LVal))
    (k : String) (a : ℤ) (h : lookupA r.deductions k = some a) (ha : ¬ a = 0) :
    lookupA (applyDeductions r llm).deductions k = some a := by
  unfold applyDeductions
  split
  · exact mergeNested_preserves _ _ _ _ h ha
  · exact h

theorem containsS_filter_eq_false (p : String → Bool) (f : String) (hf : p f = false) :
    ∀ l : List String, containsS (l.filter p) f = false := by
  intro l
  induction l with
  | nil => rfl
  | cons a rest ih =>
    rw [List.filter_cons]
    by_cases hp : p a = true
    · rw [if_pos hp]
      have haf : ¬ a = f := by
        intro he; subst he; rw [hf] at hp; cases hp
      simp [containsS, haf, ih]
    · rw [if_neg hp]
      exact ih

/-- C4: the Fallback Extractor never overwrites a value already present:
every critical field that is non-empty/non-zero before the merge is
unchanged by `_llm_fallback`, whatever mapping the external service returns
(including a conflicting value for that field), and nested
`quarterly_tds`/`deductions` entries already set non-zero are likewise
unchanged. -/
theorem c4_fallback_never_overwrites (r : ExtractionResult)
    (llm : List (String × LVal)) :
    (oTruthy r.company_name = true →
      (llm_fallback r llm).company_name = r.company_name) ∧
    (oTruthy r.employee_name = true →
      (llm_fallback r llm).employee_name = r.employee_name) ∧
    (oTruthy r.pan_of_employee = true →
      (llm_fallback r llm).pan_of_employee = r.pan_of_employee) ∧
    (oTruthy r.tan = true →
      (llm_fallback r llm).tan = r.tan) ∧
    (¬ r.gross_salary_paid = 0 →
      (llm_fallback r llm).gross_salary_paid = r.gross_salary_paid) ∧
    (¬ r.total_tds_deducted = 0 →
      (llm_fallback r llm).total_tds_deducted = r.total_tds_deducted) ∧
    (∀ q a, lookupA r.quarterly_tds q = some a → ¬ a = 0 →
      lookupA (llm_fallback r llm).quarterly_tds q = some a) ∧
    (∀ k a, lookupA r.deductions k = some a → ¬ a = 0 →
      lookupA (llm_fallback r llm).deductions k = some a) := by
  by_cases h0 : (missing_fields r).isEmpty = true
  · have hfix : llm_fallback r llm = r := by simp [llm_fallback, h0]
    rw [hfix]
    exact ⟨fun _ => rfl, fun _ => rfl, fun _ => rfl, fun _ => rfl, fun _ => rfl,
      fun _ => rfl, fun _ _ h _ => h, fun _ _ h _ => h⟩
  · by_cases h1 : llm.isEmpty = true
    · have hfix : llm_fallback r llm = r := by simp [llm_fallback, h0, h1]
      rw [hfix]
      exact ⟨fun _ => rfl, fun _ => rfl, fun _ => rfl, fun _ => rfl, fun _ => rfl,
        fun _ => rfl, fun _ _ h _ => h, fun _ _ h _ => h⟩
    · simp only [llm_fallback, if_neg h0, if_neg h1]
      obtain ⟨m1, m2, m3, m4, m5, m6, m7, m8⟩ :=
        mergeFields_preserves (missing_fields r) llm r
      obtain ⟨qf1, qf2, qf3, qf4, qf5, qf6, qf7⟩ :=
        applyQuarterly_flat (mergeFields (missing_fields r) r llm) llm
      obtain ⟨df1, df2, df3, df4, df5, df6, df7⟩ :=
        applyDeductions_flat
          (applyQuarterly (mergeFields (missing_fields r) r llm) llm) llm
      refine ⟨?_, ?_, ?_, ?_, ?_, ?_, ?_, ?_⟩
      · intro ht
        rw [df1, qf1]
        refine m1 (containsS_filter_eq_false _ _ ?_ _)
        simp [fieldMissing, ht]
      · intro ht
        rw [df2, qf2]
        refine m2 (containsS_filter_eq_false _ _ ?_ _)
        simp [fieldMissing, ht]
      · intro ht
        rw [df3, qf3]
        refine m3 (containsS_filter_eq_false _ _ ?_ _)
        simp [fieldMissing, ht]
      · intro ht
        rw [df4, qf4]
        refine m4 (containsS_filter_eq_false _ _ ?_ _)
        simp [fieldMissing, ht]
      · intro ht
        rw [df5, qf5]
        refine m5 (containsS_filter_eq_false _ _ ?_ _)
        simp [fieldMissing, ht]
      · intro ht
        rw [df6, qf6]
        refine m6 (containsS_filter_eq_false _ _ ?_ _)
        simp [fieldMissing, ht]
      · intro q a h ha
        rw [df7]
        refine applyQuarterly_keeps _ _ _ _ ?_ ha
        rw [m7]
        exact h
      · intro k a h ha
        refine applyDeductions_keeps _ _ _ _ ?_ ha
        rw [qf7, m8]
        exact h

/-- Witness for C4: a record with employer name, TAN, salary, a Q1 TDS entry
and an 80C deduction already set keeps them all verbatim when the service
returns conflicting values for them. -/
theorem c4_fallback_never_overwrites_witness :
    (llm_fallback
      ⟨some (LVal.s "Tech Solutions"), none, none, some (LVal.s "MUMX12345A"),
        1200000, 0, [("Q1", 30000)], [("section_80C", 150000)], []⟩
      [("tan", LVal.s "ZZZZ99999Z"), ("employee_name", LVal.s "Rajesh"),
       ("company_name", LVal.s "Evil Corp"),
       ("quarterly_tds", LVal.d [("Q1", LVal.i 99), ("Q2", LVal.i 500)]),
       ("deductions", LVal.d [("section_80C", LVal.i 1)])]).tan
      = some (LVal.s "MUMX12345A") ∧
    (llm_fallback
      ⟨some (LVal.s "Tech Solutions"), none, none, some (LVal.s "MUMX12345A"),
        1200000, 0, [("Q1", 30000)], [("section_80C", 150000)], []⟩
      [("tan", LVal.s "ZZZZ99999Z"), ("employee_name", LVal.s "Rajesh"),
       ("company_name", LVal.s "Evil Corp"),
       ("quarterly_tds", LVal.d [("Q1", LVal.i 99), ("Q2", LVal.i 500)]),
       ("deductions", LVal.d [("section_80C", LVal.i 1)])]).company_name
      = some (LVal.s "Tech Solutions") ∧
    (llm_fallback
      ⟨some (LVal.s "Tech Solutions"), none, none, some (LVal.s "MUMX12345A"),
        1200000, 0, [("Q1", 30000)], [("section_80C", 150000)], []⟩
      [("tan", LVal.s "ZZZZ99999Z"), ("employee_name", LVal.s "Rajesh"),
       ("company_name", LVal.s "Evil Corp"),
       ("quarterly_tds", LVal.d [("Q1", LVal.i 99), ("Q2", LVal.i 500)]),
       ("deductions", LVal.d [("section_80C", LVal.i 1)])]).gross_salary_paid
      = 1200000 ∧
    lookupA (llm_fallback
      ⟨some (LVal.s "Tech Solutions"), none, none, some (LVal.s "MUMX12345A"),
        1200000, 0, [("Q1", 30000)], [("section_80C", 150000)], []⟩
      [("tan", LVal.s "ZZZZ99999Z"), ("employee_name", LVal.s "Rajesh"),
       ("company_name", LVal.s "Evil Corp"),
       ("quarterly_tds", LVal.d [("Q1", LVal.i 99), ("Q2", LVal.i 500)]),
       ("deductions", LVal.d [("section_80C", LVal.i 1)])]).quarterly_tds "Q1"
      = some 30000 ∧
    lookupA (llm_fallback
      ⟨some (LVal.s "Tech Solutions"), none, none, some (LVal.s "MUMX12345A"),
        1200000, 0, [("Q1", 30000)], [("section_80C", 150000)], []⟩
      [("tan", LVal.s "ZZZZ99999Z"), ("employee_name", LVal.s "Rajesh"),
       ("company_name", LVal.s "Evil Corp"),
       ("quarterly_tds", LVal.d [("Q1", LVal.i 99), ("Q2", LVal.i 500)]),
       ("deductions", LVal.d [("section_80C", LVal.i 1)])]).deductions "section_80C"
      = some 150000 := by
  obtain ⟨h1, h2, h3, h4, h5, h6, h7, h8⟩ := c4_fallback_never_overwrites
    ⟨some (LVal.s "Tech Solutions"), none, none, some (LVal.s "MUMX12345A"),
      1200000, 0, [("Q1", 30000)], [("section_80C", 150000)], []⟩
    [("tan", LVal.s "ZZZZ99999Z"), ("employee_name", LVal.s "Rajesh"),
     ("company_name", LVal.s "Evil Corp"),
     ("quarterly_tds", LVal.d [("Q1", LVal.i 99), ("Q2", LVal.i 500)]),
     ("deductions", LVal.d [("section_80C", LVal.i 1)])]
  exact ⟨h4 (by decide), h1 (by decide), h5 (by decide),
    h7 "Q1" 30000 (by decide) (by decide), h8 "section_80C" 150000 (by decide) (by decide)⟩
